import Mathlib

/-!
Verification of the `vogel` JPEG/Exif metadata decoder (`vogel/jpeg.py`).

The Python source is shallowly embedded: byte strings become `List Nat`
(one `Nat` per byte), the shared seekable image (the Python 2 `StringIO`
object or file handle) becomes an explicit `Cursor` value threaded through
the functions, `struct.unpack` becomes `structUnpack`, and each Python
exception that can escape the decoder becomes a constructor of `Err`:

  * `ValueError("Invalid JPEG image")`  ↦ `Err.notAJpeg`
  * `ValueError("Invalid Exif image")`  ↦ `Err.noExifSegment`
  * `ValueError("Invalid Exif data")`   ↦ `Err.invalidExifHeader`
  * `ValueError("Invalid TIFF Frame")`  ↦ `Err.invalidTiffHeader`
  * `struct.error` (wrong byte count)   ↦ `Err.truncatedData`
  * `KeyError` into `IFD_TYPES`         ↦ `Err.unknownType`
  * `IndexError` (`val[0]` on `()`)     ↦ `Err.indexError`
  * `TypeError` (non-int used as offset)↦ `Err.typeError`
  * the CPython recursion limit         ↦ `Err.recursionLimit`

`TIFFStructure._decode_ifd` recurses without any bound of its own, so the
embedding gives it an explicit `fuel : Nat` standing for the interpreter
stack budget; `Err.recursionLimit` is the exhaustion of that budget.
-/

/-- A Python value as it flows through the decoder: an `int`, a byte
string (`str` in Python 2), or a tuple. -/
inductive PyVal where
  | int : Int → PyVal
  | str : List Nat → PyVal
  | tup : List PyVal → PyVal
deriving Repr

mutual

/-- Decidable equality on `PyVal`, mirroring Python `==` on the values the
decoder manipulates (ints, byte strings, tuples compared pointwise). -/
def PyVal.decEq : (a b : PyVal) → Decidable (a = b)
  | .int a, .int b =>
    match inferInstanceAs (Decidable (a = b)) with
    | isTrue h => isTrue (by rw [h])
    | isFalse h => isFalse (fun hh => h (PyVal.int.inj hh))
  | .int _, .str _ => isFalse (fun h => PyVal.noConfusion h)
  | .int _, .tup _ => isFalse (fun h => PyVal.noConfusion h)
  | .str _, .int _ => isFalse (fun h => PyVal.noConfusion h)
  | .str a, .str b =>
    match inferInstanceAs (Decidable (a = b)) with
    | isTrue h => isTrue (by rw [h])
    | isFalse h => isFalse (fun hh => h (PyVal.str.inj hh))
  | .str _, .tup _ => isFalse (fun h => PyVal.noConfusion h)
  | .tup _, .int _ => isFalse (fun h => PyVal.noConfusion h)
  | .tup _, .str _ => isFalse (fun h => PyVal.noConfusion h)
  | .tup a, .tup b =>
    match PyVal.decEqList a b with
    | isTrue h => isTrue (by rw [h])
    | isFalse h => isFalse (fun hh => h (PyVal.tup.inj hh))

def PyVal.decEqList : (as bs : List PyVal) → Decidable (as = bs)
  | [], [] => isTrue rfl
  | [], _ :: _ => isFalse (fun h => List.noConfusion h)
  | _ :: _, [] => isFalse (fun h => List.noConfusion h)
  | a :: as, b :: bs =>
    match PyVal.decEq a b, PyVal.decEqList as bs with
    | isTrue h1, isTrue h2 => isTrue (by rw [h1, h2])
    | isFalse h1, _ => isFalse (fun h => h1 (List.cons.inj h).1)
    | _, isFalse h2 => isFalse (fun h => h2 (List.cons.inj h).2)

end

instance : DecidableEq PyVal := PyVal.decEq

/-- ASCII codes of a Lean string literal, used to transcribe the Python
string literals of the source. -/
def pstr (s : String) : List Nat := s.toList.map Char.toNat

/-- Byte order selected by the TIFF byte-order mark (`self.bo` is the
`struct` prefix `">"` or `"<"`). -/
inductive ByteOrder where
  | big
  | little
deriving Repr, DecidableEq

/-- The shared seekable byte source (`self.image`): the underlying bytes
plus the current read position.  `seek` clamps negative positions to `0`
exactly as Python 2's `StringIO.seek` does; `read` returns the available
bytes and advances by the number of bytes actually read. -/
structure Cursor where
  data : List Nat
  pos : Nat
deriving Repr, DecidableEq

def Cursor.seek (c : Cursor) (o : Int) : Cursor :=
  { c with pos := o.toNat }

def Cursor.read (c : Cursor) (n : Nat) : List Nat × Cursor :=
  let b := (c.data.drop c.pos).take n
  (b, { c with pos := c.pos + b.length })

/-- Errors: each constructor names the Python exception (or the spec's
error kind) listed in the module docstring. -/
inductive Err where
  | notAJpeg
  | noExifSegment
  | invalidExifHeader
  | invalidTiffHeader
  | truncatedData
  | unknownType
  | indexError
  | typeError
  | recursionLimit
deriving Repr, DecidableEq

/-- One item of a `struct` format string: `B`, `H`, `I`, `i`, a
counted string `Ns`, a single char `c`, or the pad byte `x`. -/
inductive FmtItem where
  | B
  | H
  | I
  | i
  | s (n : Nat)
  | c
  | x
deriving Repr, DecidableEq

def FmtItem.size : FmtItem → Nat
  | .B => 1
  | .H => 2
  | .I => 4
  | .i => 4
  | .s n => n
  | .c => 1
  | .x => 1

/-- Unsigned integer value of a byte string in the given byte order. -/
def decodeUInt (bo : ByteOrder) (bs : List Nat) : Nat :=
  match bo with
  | .big => bs.foldl (fun a b => a * 256 + b) 0
  | .little => bs.foldr (fun b a => a * 256 + b) 0

/-- Signed 32-bit value (`struct` format `i`): two's complement. -/
def decodeSInt (bo : ByteOrder) (bs : List Nat) : Int :=
  let u := decodeUInt bo bs
  if u ≥ 2 ^ 31 then (u : Int) - 2 ^ 32 else (u : Int)

/-- `struct.unpack`: consumes the data exactly (any length mismatch is a
`struct.error`, rendered as `none`), producing the tuple of values as a
list.  The pad item `x` consumes a byte and produces no value. -/
def structUnpack (bo : ByteOrder) : List FmtItem → List Nat → Option (List PyVal)
  | [], [] => some []
  | [], _ :: _ => none
  | it :: its, data =>
    if data.length < it.size then none
    else
      let chunk := data.take it.size
      match structUnpack bo its (data.drop it.size) with
      | none => none
      | some vs =>
        match it with
        | .x => some vs
        | .s _ => some (.str chunk :: vs)
        | .c => some (.str chunk :: vs)
        | .B => some (.int (decodeUInt bo chunk) :: vs)
        | .H => some (.int (decodeUInt bo chunk) :: vs)
        | .I => some (.int (decodeUInt bo chunk) :: vs)
        | .i => some (.int (decodeSInt bo chunk) :: vs)

/-- `TIFFStructure._unpack`: prefix the byte order, unpack, and return
`val if len(val) > 1 else val[0]` (an empty tuple raises `IndexError`). -/
def pyUnpack (bo : ByteOrder) (fmt : List FmtItem) (data : List Nat) : Except Err PyVal :=
  match structUnpack bo fmt data with
  | none => .error .truncatedData
  | some [] => .error .indexError
  | some [v] => .ok v
  | some (v :: w :: vs) => .ok (.tup (v :: w :: vs))

/-- Coerce a decoded Python int to a `Nat` where the source uses it as a
count or a seek offset; any other shape is a Python `TypeError`. -/
def asNat (v : PyVal) : Except Err Nat :=
  match v with
  | .int z => if z < 0 then .error .typeError else .ok z.toNat
  | _ => .error .typeError

/-- A decoded Python int used as-is (e.g. an IFD offset). -/
def asInt (v : PyVal) : Except Err Int :=
  match v with
  | .int z => .ok z
  | _ => .error .typeError

/-- Python tuple unpacking `a, b, c = v` on an unpacked triple. -/
def asTriple (v : PyVal) : Except Err (Int × Int × Int) :=
  match v with
  | .tup [.int a, .int b, .int c] => .ok (a, b, c)
  | _ => .error .typeError

/-- Python value literal helpers for transcribing the catalog. -/
def vi (z : Int) : PyVal := .int z

def vs (s : String) : PyVal := .str (pstr s)

def vt (l : List Int) : PyVal := .tup (l.map PyVal.int)

/-- `TIFFStructure.RES`. -/
def RES : PyVal := vs ("RESERVED")

/-- `TIFFStructure.OTHER`: the reserved fallback key of a value mapping. -/
def OTHER : Int := -1

/-- One row of the tag catalog: `(Name, Default, ValueMapping)`. -/
abbrev TagInfo := List Nat × Option PyVal × List (PyVal × PyVal)

/-- `TIFFStructure.IFD_TYPES`: `Type: (fmt, size, name, parse_fn)`.  The
`Bool` records whether a `parse_fn` is present (only ASCII's
`lambda x: x[:-1]`, rendered by `pyStrip` below). -/
def IFD_TYPES : List (Nat × (List FmtItem × Nat × List Nat × Bool)) :=
  [ (1, ([.B], 1, pstr ("BYTE"), false)),
    (2, ([.s 1], 1, pstr ("ASCII"), true)),
    (3, ([.H], 2, pstr ("SHORT"), false)),
    (4, ([.I], 4, pstr ("LONG"), false)),
    (5, ([.I, .I], 8, pstr ("RATIONAL"), false)),
    (7, ([.x], 1, pstr ("UNDEFINED"), false)),
    (9, ([.i], 4, pstr ("SLONG"), false)),
    (10, ([.i, .i], 8, pstr ("SRATIONAL"), false)) ]

/-- `TIFFStructure.IFD_TAGS`: `Tag (DEC): (Name, Default, ValueMapping)`. -/
def IFD_TAGS : List (Nat × TagInfo) :=
  [ (256, (pstr ("ImageWidth"), none, [])),
    (257, (pstr ("ImageLength"), none, [])),
    (258, (pstr ("BitsPerSample"), some (vt [8, 8, 8]), [])),
    (259, (pstr ("Compression"), none,
      [(vi 1, vs ("uncompressed")), (vi 6, vs ("JPEG")), (vi OTHER, RES)])),
    (262, (pstr ("PhotometricInterpretation"), none,
      [(vi 2, vs ("RGB")), (vi 6, vs ("YCbCr")), (vi OTHER, RES)])),
    (274, (pstr ("Orientation"), some (vi 1), [])),
    (277, (pstr ("SamplesPerPixel"), some (vi 3), [])),
    (284, (pstr ("PlanarConfiguration"), none,
      [(vi 1, vs ("chunky")), (vi 2, vs ("planar")), (vi OTHER, RES)])),
    (530, (pstr ("YCbCrSubSampling"), none,
      [(vt [2, 1], vs ("YCbCr4:2:2")), (vt [2, 2], vs ("YCbCr4:2:0")),
       (vi OTHER, RES)])),
    (531, (pstr ("YCbCrPositioning"), some (vi 1),
      [(vi 1, vs ("centered")), (vi 2, vs ("co-sited")), (vi OTHER, RES)])),
    (282, (pstr ("XResolution"), some (vt [72, 1]), [])),
    (283, (pstr ("YResolution"), some (vt [72, 1]), [])),
    (296, (pstr ("ResolutionUnit"), some (vi 2),
      [(vi 2, vs ("inches")), (vi 3, vs ("centimeters")), (vi OTHER, RES)])),
    (273, (pstr ("StripOffsets"), none, [])),
    (278, (pstr ("RowsPerStrip"), none, [])),
    (279, (pstr ("StripByteCounts"), none, [])),
    (513, (pstr ("JPEGInterchangeFormat"), none, [])),
    (514, (pstr ("JPEGInterchangeFormatLength"), none, [])),
    (301, (pstr ("TransferFunction"), none, [])),
    (318, (pstr ("WhitePoint"), none, [])),
    (319, (pstr ("PrimaryChromaticities"), none, [])),
    (529, (pstr ("YCbCrCoefficients"), none, [])),
    (532, (pstr ("ReferenceBlackWhite"), none, [])),
    (306, (pstr ("DateTime"), none, [])),
    (270, (pstr ("ImageDescription"), none, [])),
    (271, (pstr ("Make"), none, [])),
    (272, (pstr ("Model"), none, [])),
    (305, (pstr ("Software"), none, [])),
    (315, (pstr ("Artist"), none, [])),
    (33432, (pstr ("Copyright"), none, [])),
    (36864, (pstr ("ExifVersion"), some (vs ("0230")), [])),
    (40960, (pstr ("FlashpixVersion"), some (vs ("0100")),
      [(vs ("0100"), vs ("Flashpix Format Version 1.0")), (vi OTHER, RES)])),
    (40961, (pstr ("ColorSpace"), some (vi 1),
      [(vi 1, vs ("sRGB")), (vi 65535, vs ("Uncalibrated")), (vi OTHER, RES)])),
    (42240, (pstr ("Gamma"), none, [])),
    (37121, (pstr ("ComponentsConfiguration"), some (vs ("1230")), [])),
    (37122, (pstr ("CompressedBitsPerPixel"), none, [])),
    (40962, (pstr ("PixelXDimension"), none, [])),
    (40963, (pstr ("PixelYDimension"), none, [])),
    (37500, (pstr ("MakerNote"), none, [])),
    (37510, (pstr ("UserComment"), none, [])),
    (40964, (pstr ("RelatedSoundFile"), none, [])),
    (36867, (pstr ("DateTimeOriginal"), none, [])),
    (36868, (pstr ("DateTimeDigitized"), none, [])),
    (37520, (pstr ("SubSecTime"), none, [])),
    (37521, (pstr ("SubSecTimeOriginal"), none, [])),
    (37522, (pstr ("SubSecTimeDigitized"), none, [])),
    (33434, (pstr ("ExposureTime"), none, [])),
    (33437, (pstr ("FNumber"), none, [])),
    (34850, (pstr ("ExposureProgram"), some (vi 0),
      [(vi 0, vs ("Not defined")), (vi 1, vs ("Manual")),
       (vi 2, vs ("Normal program")), (vi 3, vs ("Aperture priority")),
       (vi 4, vs ("Shutter priority")),
       (vi 5, vs ("Creative program (biased toward depth of field)")),
       (vi 6, vs ("Action program (biased toward fast shutter speed)")),
       (vi 7, vs ("Portrait mode (for closeup photos with the background out of focus)")),
       (vi 8, vs ("Landscape mode (for landscape photos with the background in focus)")),
       (vi OTHER, RES)])),
    (34852, (pstr ("SpectralSensitivity"), none, [])),
    (34855, (pstr ("PhotographicSensitivity"), none, [])),
    (34856, (pstr ("OECF"), none, [])),
    (34864, (pstr ("SensitivityType"), none,
      [(vi 0, vs ("Unknown")), (vi 1, vs ("SOS")), (vi 2, vs ("REI")),
       (vi 3, vs ("ISO Speed")), (vi 4, vs ("SOS,REI")),
       (vi 5, vs ("SOS,ISO Speed")), (vi 6, vs ("REI,ISO Speed")),
       (vi 7, vs ("SOS,REI,ISO Speed")), (vi OTHER, RES)])),
    (34865, (pstr ("StandardOutputSensitivity"), none, [])),
    (34866, (pstr ("RecommendedExposureIndex"), none, [])),
    (34867, (pstr ("ISOSpeed"), none, [])),
    (34868, (pstr ("ISOSpeedLatitudeyyy"), none, [])),
    (34869, (pstr ("ISOSpeedLatitudezzz"), none, [])),
    (37377, (pstr ("ShutterSpeedValue"), none, [])),
    (37378, (pstr ("ApertureValue"), none, [])),
    (37379, (pstr ("BrightnessValue"), none, [])),
    (37380, (pstr ("ExposureBiasValue"), none, [])),
    (37381, (pstr ("MaxApertureValue"), none, [])),
    (37382, (pstr ("SubjectDistance"), none, [])),
    (37383, (pstr ("MeteringMode"), some (vi 0),
      [(vi 0, vs ("Unknown")), (vi 1, vs ("Average")),
       (vi 2, vs ("CenterWeightedAverage")), (vi 3, vs ("Spot")),
       (vi 4, vs ("MultiSpot")), (vi 5, vs ("Pattern")),
       (vi 6, vs ("Partial")), (vi 255, vs ("Other")), (vi OTHER, RES)])),
    (37384, (pstr ("LightSource"), some (vi 0),
      [(vi 0, vs ("Unknown")), (vi 1, vs ("Daylight")),
       (vi 2, vs ("Fluorescent")), (vi 3, vs ("Tungsten")),
       (vi 4, vs ("Flash")), (vi 9, vs ("Fine weather")),
       (vi 10, vs ("Cloudy weather")), (vi 11, vs ("Shade")),
       (vi 12, vs ("Daylight fluorescent (D 5700 - 7100K)")),
       (vi 13, vs ("Day white fluorescent (N 4600 - 5500K)")),
       (vi 14, vs ("Cool white fluorescent (W 3800 - 4500K)")),
       (vi 15, vs ("White fluorescent (WW 3250 - 3800K)")),
       (vi 16, vs ("Warm white fluorescent (L 2600 - 3250K)")),
       (vi 17, vs ("Standard light A")), (vi 18, vs ("Standard light B")),
       (vi 19, vs ("Standard light C")), (vi 20, vs ("D55")),
       (vi 21, vs ("D65")), (vi 22, vs ("D75")), (vi 23, vs ("D50")),
       (vi 24, vs ("ISO studio tungsten")), (vi 255, vs ("Other")),
       (vi OTHER, RES)])),
    (37385, (pstr ("Flash"), none, [])),
    (37386, (pstr ("FocalLength"), none, [])),
    (37396, (pstr ("SubjectArea"), none, [])),
    (41483, (pstr ("FlashEnergy"), none, [])),
    (41484, (pstr ("SpatialFrequencyResponse"), none, [])),
    (41486, (pstr ("FocalPlaneXResolution"), none, [])),
    (41487, (pstr ("FocalPlaneYResolution"), none, [])),
    (41488, (pstr ("FocalPlaneResolutionUnit"), some (vi 2), [])),
    (41492, (pstr ("SubjectLocation"), none, [])),
    (41493, (pstr ("ExposureIndex"), none, [])),
    (41495, (pstr ("SensingMethod"), none,
      [(vi 1, vs ("Not defined")), (vi 2, vs ("One-chip color area sensor")),
       (vi 3, vs ("Two-chip color area sensor")),
       (vi 4, vs ("Three-chip color area sensor")),
       (vi 5, vs ("Color sequential area sensor")),
       (vi 7, vs ("Trilinear sensor")),
       (vi 8, vs ("Color sequential linear sensor")), (vi OTHER, RES)])),
    (41728, (pstr ("FileSource"), some (vi 3),
      [(vi 0, vs ("Others")), (vi 1, vs ("Scanner of transparent type")),
       (vi 2, vs ("Scanner of reflex type")), (vi 3, vs ("DSC")),
       (vi OTHER, RES)])),
    (41729, (pstr ("SceneType"), some (vi 1),
      [(vi 1, vs ("A directly photographed image")), (vi OTHER, RES)])),
    (41730, (pstr ("CFAPattern"), none, [])),
    (41985, (pstr ("CustomRendered"), some (vi 0),
      [(vi 0, vs ("Normal Process")), (vi 1, vs ("Custom Process")),
       (vi OTHER, RES)])),
    (41986, (pstr ("ExposureMode"), none,
      [(vi 0, vs ("Auto")), (vi 1, vs ("Manual")), (vi 2, vs ("Auto bracket")),
       (vi OTHER, RES)])),
    (41987, (pstr ("WhiteBalance"), none,
      [(vi 0, vs ("Auto")), (vi 1, vs ("Manual")), (vi OTHER, RES)])),
    (41988, (pstr ("DigitalZoomRatio"), none, [])),
    (41989, (pstr ("FocalLengthIn35mmFilm"), none, [])),
    (41990, (pstr ("SceneCaptureType"), some (vi 0),
      [(vi 0, vs ("Standard")), (vi 1, vs ("Landscape")),
       (vi 2, vs ("Portrait")), (vi 3, vs ("Night scene")),
       (vi OTHER, RES)])),
    (41991, (pstr ("GainControl"), none,
      [(vi 0, vs ("None")), (vi 1, vs ("Low gain up")),
       (vi 2, vs ("High gain up")), (vi 3, vs ("Low gain down")),
       (vi 4, vs ("High gain down")), (vi OTHER, RES)])),
    (41992, (pstr ("Contrast"), some (vi 0),
      [(vi 0, vs ("Normal")), (vi 1, vs ("Soft")), (vi 2, vs ("Hard")),
       (vi OTHER, RES)])),
    (41993, (pstr ("Saturation"), some (vi 0),
      [(vi 0, vs ("Normal")), (vi 1, vs ("Low saturation")),
       (vi 2, vs ("High saturation")), (vi OTHER, RES)])),
    (41994, (pstr ("Sharpness"), some (vi 0),
      [(vi 0, vs ("Normal")), (vi 1, vs ("Soft")), (vi 2, vs ("Hard")),
       (vi OTHER, RES)])),
    (41995, (pstr ("DeviceSettingDescription"), none, [])),
    (41996, (pstr ("SubjectDistanceRange"), none,
      [(vi 0, vs ("Unknown")), (vi 1, vs ("Macro")),
       (vi 2, vs ("Close view")), (vi 3, vs ("Distant view")),
       (vi OTHER, RES)])),
    (42016, (pstr ("ImageUniqueID"), none, [])),
    (42032, (pstr ("CameraOwnerName"), none, [])),
    (42033, (pstr ("BodySerialNumber"), none, [])),
    (42034, (pstr ("LensSpecification"), none, [])),
    (42035, (pstr ("LensMake"), none, [])),
    (42036, (pstr ("LensModel"), none, [])),
    (42037, (pstr ("LensSerialNumber"), none, [])) ]

/-- The keys of `TIFFStructure.EXIF_IFD_TAGS` (`34665: EXIF_IFD`,
`34853: GPS_IFD`); only membership of a tag among the keys is ever used. -/
def EXIF_IFD_TAGS : List Nat := [34665, 34853]

/-- The decoded field mapping `self.ifd_entries` (a Python dict), as an
association list with unique keys; `setEntry` is dict assignment. -/
abbrev Entries := List (List Nat × PyVal)

def setEntry (es : Entries) (n : List Nat) (v : PyVal) : Entries :=
  (n, v) :: es.filter (fun p => p.1 != n)

def lookupE (es : Entries) (n : List Nat) : Option PyVal :=
  (es.find? (fun p => p.1 == n)).map (fun p => p.2)

/-- Python `dict.get` on a value mapping. -/
def dictGet (m : List (PyVal × PyVal)) (k : PyVal) : Option PyVal :=
  (m.find? (fun p => decide (p.1 = k))).map (fun p => p.2)

/-- `TIFFStructure._translate_ifd_value`:
`mapping.get(value, mapping.get(self.OTHER, value))`. -/
def translateIfdValue (m : List (PyVal × PyVal)) (v : PyVal) : PyVal :=
  (dictGet m v).getD ((dictGet m (.int OTHER)).getD v)

/-- The loop body of `_init_ifd_defaults`: for a catalog row with a
default, bind the (mapping-translated) default under the row's name. -/
def initStep (es : Entries) (ti : Nat × TagInfo) : Entries :=
  match ti.2 with
  | (name, some dflt, mapping) =>
      setEntry es name
        (if mapping.isEmpty then dflt else translateIfdValue mapping dflt)
  | (_, none, _) => es

/-- `TIFFStructure._init_ifd_defaults`: seed `ifd_entries` with every
catalog default (translated through the value mapping when one exists). -/
def initIfdDefaults : Entries :=
  IFD_TAGS.foldl initStep []

/-- Python dict lookup `IFD_TAGS[tag]` as an `Option`. -/
def lookupTag (tag : Nat) : Option TagInfo :=
  (IFD_TAGS.find? (fun p => decide (p.1 = tag))).map (fun p => p.2)

/-- The synthesized descriptor name `"NA-0x%x" % tag`. -/
def naName (tag : Nat) : List Nat :=
  pstr ("NA-0x") ++ (Nat.toDigits 16 tag).map Char.toNat

/-- `TIFFStructure._store_ifd_entry` (the `typ`/`count` arguments are
passed but unused, as in the source). -/
def storeIfdEntry (es : Entries) (tag : Nat) (_typ _count : Nat) (v : PyVal) : Entries :=
  match (lookupTag tag).getD (naName tag, none, []) with
  | (name, _, mapping) => setEntry es name (translateIfdValue mapping v)

/-- Constants of `TIFFStructure`. -/
def BOM_BIG : List Nat := [0x4d, 0x4d]

def BOM_LIT : List Nat := [0x49, 0x49]

def IFD_OFFSET_LEN : Nat := 4

def IFD_COUNT_LEN : Nat := 2

def IFD_ENTRY_LEN : Nat := 12

def IFD_ENTRY_COUNT_LEN : Nat := 4

/-- The ASCII `parse_fn`, `lambda x: x[:-1]`: Python slicing drops the
last element of a string (or tuple). -/
def pyStrip (v : PyVal) : PyVal :=
  match v with
  | .str s => .str s.dropLast
  | .tup l => .tup l.dropLast
  | v => v

/-- String repetition `fmt * count` on a format. -/
def repFmt : Nat → List FmtItem → List FmtItem
  | 0, _ => []
  | n + 1, f => f ++ repFmt n f

/-- Python dict lookup `IFD_TYPES[typ]` as an `Option` (`none` is the
`KeyError`). -/
def lookupType (typ : Nat) : Option (List FmtItem × Nat × List Nat × Bool) :=
  (IFD_TYPES.find? (fun p => decide (p.1 = typ))).map (fun p => p.2)

/-- The decoding context: `self.offset` (the TIFF base within the image)
and the byte order `self.bo` fixed by `_verify_tiff`. -/
structure TiffCtx where
  base : Nat
  bo : ByteOrder
deriving Repr, DecidableEq

/-- The mutable state of `TIFFStructure` during a decode: the shared image
cursor and the `ifd_entries` dict. -/
structure TiffSt where
  cur : Cursor
  entries : Entries
deriving Repr, DecidableEq

/-- Lines 398–403 of `_decode_value`: choose the source of the value
bytes.  If `byte_len` exceeds the inline capacity, interpret the entry's
4-byte field as an offset, read `byte_len` bytes at `self.offset + off`,
and restore the cursor; otherwise the field itself is the value. -/
def sourceBytes (ctx : TiffCtx) (cur : Cursor) (field : List Nat) (byteLen : Nat) :
    Except Err (List Nat × Cursor) :=
  if byteLen > IFD_ENTRY_COUNT_LEN then
    let pos := cur.pos
    (pyUnpack ctx.bo [.I] field).bind fun offV =>
    (asNat offV).bind fun off =>
    let r := (cur.seek (Int.ofNat (ctx.base + off))).read byteLen
    .ok (r.1, r.2.seek (Int.ofNat pos))
  else .ok (field, cur)

/-- `TIFFStructure._decode_value`. -/
def decodeValue (ctx : TiffCtx) (cur : Cursor) (typ : Nat) (field : List Nat)
    (count : Nat) : Except Err (PyVal × Cursor) :=
  if typ = 7 then .ok (.str field, cur)
  else
    match lookupType typ with
    | none => .error .unknownType
    | some (fmt, size, _, hasParse) =>
      (sourceBytes ctx cur field (size * count)).bind fun bc =>
      (pyUnpack ctx.bo (if typ = 2 then [.s count] else repFmt count fmt)
          (bc.1.take (size * count))).bind fun v =>
      .ok ((if hasParse then pyStrip v else v), bc.2)

/-- `TIFFStructure._handle_ifd_entry`.  `recurse` is the recursive call
`self._decode_ifd` at the remaining stack budget. -/
def handleIfdEntry (recurse : TiffSt → Int → Except Err TiffSt) (st : TiffSt)
    (tag typ count : Nat) (v : PyVal) : Except Err TiffSt :=
  if tag ∈ EXIF_IFD_TAGS then
    if tag = 34853 then .ok st
    else (asInt v).bind fun z => recurse st z
  else .ok { cur := st.cur, entries := storeIfdEntry st.entries tag typ count v }

/-- `TIFFStructure._decode_ifd_entry`. -/
def decodeIfdEntry (ctx : TiffCtx) (recurse : TiffSt → Int → Except Err TiffSt)
    (st : TiffSt) (b : List Nat) : Except Err TiffSt :=
  (pyUnpack ctx.bo [.H, .H, .I] (b.take 8)).bind fun hv =>
  (asTriple hv).bind fun tpc =>
  (decodeValue ctx st.cur tpc.2.1.toNat (b.drop 8) tpc.2.2.toNat).bind fun p =>
  handleIfdEntry recurse { cur := p.2, entries := st.entries }
    tpc.1.toNat tpc.2.1.toNat tpc.2.2.toNat p.1

/-- The entry loop of `_decode_ifd` (`for i in xrange(count)`). -/
def decodeEntries (ctx : TiffCtx) (recurse : TiffSt → Int → Except Err TiffSt) :
    Nat → TiffSt → Except Err TiffSt
  | 0, st => .ok st
  | n + 1, st =>
    let r := st.cur.read IFD_ENTRY_LEN
    (decodeIfdEntry ctx recurse { cur := r.2, entries := st.entries } r.1).bind
      fun st1 => decodeEntries ctx recurse n st1

/-- `TIFFStructure._decode_ifd`, with `fuel` standing for the CPython
stack budget consumed by the unbounded recursion of the source. -/
def decodeIfd (ctx : TiffCtx) : Nat → TiffSt → Int → Except Err TiffSt
  | 0, _, _ => .error .recursionLimit
  | fuel + 1, st, off =>
    let pos := st.cur.pos
    let r0 := (st.cur.seek (Int.ofNat ctx.base + off)).read IFD_COUNT_LEN
    (pyUnpack ctx.bo [.H] r0.1).bind fun cntV =>
    (asNat cntV).bind fun cnt =>
    (decodeEntries ctx (fun s o => decodeIfd ctx fuel s o) cnt
        { cur := r0.2, entries := st.entries }).bind fun st1 =>
    let r1 := st1.cur.read IFD_OFFSET_LEN
    (pyUnpack ctx.bo [.I] r1.1).bind fun _ =>
    .ok { cur := r1.2.seek (Int.ofNat pos), entries := st1.entries }

/-- `TIFFStructure._verify_tiff`: byte-order mark, then magic number 42. -/
def verifyTiff (cur : Cursor) (base : Nat) : Except Err (ByteOrder × Cursor) :=
  let r0 := (cur.seek (Int.ofNat base)).read 2
  (if r0.1 = BOM_BIG then (.ok .big : Except Err ByteOrder)
   else if r0.1 = BOM_LIT then .ok .little
   else .error .invalidTiffHeader).bind fun bo =>
  let r1 := r0.2.read 2
  (pyUnpack bo [.H] r1.1).bind fun magic =>
  if magic = .int 42 then .ok (bo, r1.2) else .error .invalidTiffHeader

/-- `TIFFStructure._decode_tiff_header`: the 32-bit offset of IFD0. -/
def decodeTiffHeader (ctx : TiffCtx) (cur : Cursor) : Except Err (Int × Cursor) :=
  let r := (cur.seek (Int.ofNat (ctx.base + 2 + 2))).read IFD_OFFSET_LEN
  (pyUnpack ctx.bo [.I] r.1).bind fun v =>
  (asInt v).bind fun z =>
  .ok (z, r.2)

/-- `TIFFStructure.__init__`: seed the defaults, verify the TIFF frame,
then decode the structure starting at IFD0. -/
def tiffInit (fuel : Nat) (cur : Cursor) (base : Nat) : Except Err TiffSt :=
  let entries := initIfdDefaults
  (verifyTiff cur base).bind fun bc =>
  (decodeTiffHeader ⟨base, bc.1⟩ bc.2).bind fun oc =>
  decodeIfd ⟨base, bc.1⟩ fuel { cur := oc.2, entries := entries } oc.1

/-- `EXIFData.ID_CODE` (`"Exif\x00"`, five bytes). -/
def ID_CODE : List Nat := pstr ("Exif\x00")

/-- `EXIFData.PADDING` (`"\x00"`). -/
def PADDING : List Nat := [0]

/-- `EXIFData._verify_exif`: read 6 bytes at `offset` and require
`struct.unpack("5sc", header) == (ID_CODE, PADDING)`. -/
def verifyExif (cur : Cursor) (offset : Nat) : Except Err Cursor :=
  let r := (cur.seek (Int.ofNat offset)).read 6
  match structUnpack .big [.s 5, .c] r.1 with
  | none => .error .truncatedData
  | some [.str idc, .str pad] =>
      if idc = ID_CODE ∧ pad = PADDING then .ok r.2
      else .error .invalidExifHeader
  | some _ => .error .typeError

/-- `Exif` marker constants. -/
def SOI : List Nat := [0xff, 0xd8]

def APP0 : List Nat := [0xff, 0xe0]

def APP1 : List Nat := [0xff, 0xe1]

/-- `Exif._verify_jpeg`. -/
def verifyJpeg (cur : Cursor) : Except Err Cursor :=
  let r := (cur.seek 0).read 2
  if r.1 = SOI then .ok r.2 else .error .notAJpeg

/-- Python `buf.find(pat)` from position `i`. -/
def strFindAux (pat : List Nat) : List Nat → Nat → Int
  | hay, i =>
    if pat.isPrefixOf hay then Int.ofNat i
    else
      match hay with
      | [] => -1
      | _ :: t => strFindAux pat t (i + 1)

/-- Python `buf.find(pat)`: index of the first occurrence, `-1` if none. -/
def strFind (hay pat : List Nat) : Int := strFindAux pat hay 0

/-- The chunked accumulation loop of `Exif._find_app1_marker`. -/
def findLoop (cur : Cursor) (buf : List Nat) : Int × Cursor :=
  let r := cur.read 1024
  if h : r.1 = [] then (-1, r.2)
  else
    let buf2 := buf ++ r.1
    let loc := strFind buf2 APP1
    if loc < 0 then findLoop r.2 buf2 else (loc, r.2)
termination_by cur.data.length - cur.pos
decreasing_by
  have hp : cur.pos < cur.data.length := by
    rcases Nat.lt_or_ge cur.pos cur.data.length with hlt | hge
    · exact hlt
    · exact absurd (show ((cur.data.drop cur.pos).take 1024) = [] by
        rw [List.drop_eq_nil_iff.mpr hge, List.take_nil]) h
  have h2 : 0 < ((cur.data.drop cur.pos).take 1024).length := by
    rcases Nat.eq_zero_or_pos ((cur.data.drop cur.pos).take 1024).length with h0 | hpos
    · exact absurd (List.length_eq_zero.mp h0) h
    · exact hpos
  show cur.data.length - (cur.pos + ((cur.data.drop cur.pos).take 1024).length) <
    cur.data.length - cur.pos
  omega

/-- `Exif._find_app1_marker`. -/
def findApp1Marker (cur : Cursor) (offset : Int) : Int × Cursor :=
  let r := findLoop (cur.seek offset) []
  ((if r.1 < 0 then r.1 else r.1 + offset), r.2)

/-- `Exif._get_app1_offset`: strict path, JFIF-tolerant path, then the
linear-search fallback. -/
def getApp1Offset (cur : Cursor) : Except Err (Int × Cursor) :=
  let offset : Int := 2
  let r0 := (cur.seek offset).read 2
  ((if r0.1 = APP0 then
      let r1 := r0.2.read 2
      (pyUnpack .big [.H] r1.1).bind fun lenV =>
      (asNat lenV).bind fun app0len =>
      let offset2 := offset + 2 + (app0len : Int)
      let r2 := (r1.2.seek offset2).read 2
      .ok (offset2, r2.1, r2.2)
    else .ok (offset, r0.1, r0.2)) : Except Err (Int × List Nat × Cursor)).bind
    fun omc =>
  if omc.2.1 = APP1 then .ok (omc.1, omc.2.2)
  else .ok (findApp1Marker omc.2.2 omc.1)

/-- The input to `Exif.__init__`: an in-memory byte string (wrapped in a
`StringIO`) or a seekable file handle over the same bytes. -/
inductive ImageInput where
  | str : List Nat → ImageInput
  | file : List Nat → ImageInput

def toCursor : ImageInput → Cursor
  | .str s => ⟨s, 0⟩
  | .file s => ⟨s, 0⟩

/-- `Exif.__init__`: verify the JPEG, locate APP1 (`< 0` means not
found), then decode the Exif payload (`APP1Segment.HEADER_LEN = 4`,
`EXIFData.HEADER_LEN = 6`). -/
def exifInit (fuel : Nat) (img : ImageInput) : Except Err TiffSt :=
  (verifyJpeg (toCursor img)).bind fun cur =>
  (getApp1Offset cur).bind fun oc =>
  if oc.1 < 0 then .error .noExifSegment
  else
    let exoff := oc.1.toNat + 4
    (verifyExif oc.2 exoff).bind fun cur2 =>
    tiffInit fuel cur2 (exoff + 6)

/-- Total byte size of a `struct` format (`struct.calcsize`). -/
def calcSize (its : List FmtItem) : Nat := (its.map FmtItem.size).sum

/-- The value `_init_ifd_defaults` binds for a catalog default. -/
def defaultValue (dflt : PyVal) (mapping : List (PyVal × PyVal)) : PyVal :=
  if mapping.isEmpty then dflt else translateIfdValue mapping dflt

/-- The field name `_store_ifd_entry` stores a tag under. -/
def storeName (tag : Nat) : List Nat :=
  ((lookupTag tag).getD (naName tag, none, [])).1

/-- The value mapping `_store_ifd_entry` translates a tag's value with. -/
def storeMapping (tag : Nat) : List (PyVal × PyVal) :=
  ((lookupTag tag).getD (naName tag, none, [])).2.2

/-- The names of the catalog rows that carry a default. -/
def defaultedNamesOf (l : List (Nat × TagInfo)) : List (List Nat) :=
  l.filterMap fun p =>
    match p.2 with
    | (n, some _, _) => some n
    | _ => none

/-- Replay a list of stored entries `(tag, typ, count, value)` over an
entries map. -/
def foldStore (tr : List (Nat × Nat × Nat × PyVal)) (es : Entries) : Entries :=
  tr.foldl (fun e q => storeIfdEntry e q.1 q.2.1 q.2.2.1 q.2.2.2) es

/-- A format item denoting a single integer value. -/
def intFmt (it : FmtItem) : Prop :=
  it = .B ∨ it = .H ∨ it = .I ∨ it = .i

/-- A minimal big-endian TIFF block: header pointing at an IFD with zero
entries and a zero next-IFD offset. -/
def emptyIfdTiff : List Nat :=
  [0x4d, 0x4d, 0, 42, 0, 0, 0, 8, 0, 0, 0, 0, 0, 0]

/-- A complete JPEG whose single IFD entry is the Exif sub-IFD pointer
(tag 34665, type LONG, count 1) whose offset points back at the very same
IFD: a directory-offset cycle. -/
def cyclicIfdJpeg : List Nat :=
  [0xff, 0xd8, 0xff, 0xe1, 0, 0,
   0x45, 0x78, 0x69, 0x66, 0, 0,
   0x4d, 0x4d, 0, 0x2a, 0, 0, 0, 8,
   0, 1,
   0x87, 0x69, 0, 4, 0, 0, 0, 1, 0, 0, 0, 8]

/-- A complete JPEG with one SHORT entry: tag 259 (Compression), value 6. -/
def compressionJpeg : List Nat :=
  [0xff, 0xd8, 0xff, 0xe1, 0, 0,
   0x45, 0x78, 0x69, 0x66, 0, 0,
   0x4d, 0x4d, 0, 0x2a, 0, 0, 0, 8,
   0, 1,
   0x01, 0x03, 0, 3, 0, 0, 0, 1, 0, 6, 0, 0,
   0, 0, 0, 0]

/-- Sixteen bytes holding the big-endian 32-bit values 1, 2, 3, 4: two
RATIONAL (numerator, denominator) pairs stored at offset 0. -/
def twoRationals : List Nat :=
  [0, 0, 0, 1, 0, 0, 0, 2, 0, 0, 0, 3, 0, 0, 0, 4]

/-- A JPEG starting with an APP0/JFIF segment of declared length 16,
followed by the APP1 marker at offset `4 + 16 = 20`. -/
def jfifThenApp1 : List Nat :=
  [0xff, 0xd8, 0xff, 0xe0, 0, 16,
   0x4a, 0x46, 0x49, 0x46, 0, 0, 0, 0, 0, 0, 0, 0, 0, 0,
   0xff, 0xe1]

/-- The same JPEG with the APP1 marker replaced by arbitrary bytes, so
the locator must fall back to the linear search. -/
def jfifNoApp1 : List Nat :=
  [0xff, 0xd8, 0xff, 0xe0, 0, 16,
   0x4a, 0x46, 0x49, 0x46, 0, 0, 0, 0, 0, 0, 0, 0, 0, 0,
   0x12, 0x34]

/-! Helper lemmas about `structUnpack` and formats. -/

theorem structUnpack_length {bo : ByteOrder} :
    ∀ {its : List FmtItem} {data : List Nat} {vs : List PyVal},
      structUnpack bo its data = some vs → data.length = calcSize its := by
  intro its
  induction its with
  | nil =>
    intro data vs h
    cases data with
    | nil => simp [calcSize]
    | cons a t => simp [structUnpack] at h
  | cons it its ih =>
    intro data vs h
    simp only [structUnpack] at h
    split at h
    · exact absurd h (by simp)
    · rename_i hlen
      cases hrec : structUnpack bo its (data.drop it.size) with
      | none => rw [hrec] at h; simp at h
      | some vs' =>
        have hdrop := ih hrec
        simp only [List.length_drop] at hdrop
        simp only [calcSize, List.map_cons, List.sum_cons] at *
        omega

theorem exists_map_int_cons {A : Int} {zs : List Int} {n : Nat}
    (h : zs.length = n) :
    ∃ zs1 : List Int, PyVal.int A :: zs.map PyVal.int = zs1.map PyVal.int ∧
      zs1.length = n + 1 :=
  ⟨A :: zs, by simp, by simp [h]⟩

theorem structUnpack_int_shape {bo : ByteOrder} :
    ∀ {its : List FmtItem} {data : List Nat} {vs : List PyVal},
      (∀ it ∈ its, intFmt it) → structUnpack bo its data = some vs →
      ∃ zs : List Int, vs = zs.map PyVal.int ∧ zs.length = its.length := by
  intro its
  induction its with
  | nil =>
    intro data vs _ h
    cases data with
    | nil =>
      simp only [structUnpack, Option.some.injEq] at h
      exact ⟨[], by simp [← h]⟩
    | cons a t => simp [structUnpack] at h
  | cons it its ih =>
    intro data vs hint h
    simp only [structUnpack] at h
    split at h
    · exact absurd h (by simp)
    · cases hrec : structUnpack bo its (data.drop it.size) with
      | none => rw [hrec] at h; simp at h
      | some vs' =>
        rw [hrec] at h
        obtain ⟨zs, hzs, hlen⟩ := ih (fun j hj => hint j (List.mem_cons_of_mem _ hj)) hrec
        subst hzs
        rcases hint it (List.mem_cons_self _ _) with h1 | h1 | h1 | h1 <;> subst h1 <;>
          simp only [Option.some.injEq] at h <;> rw [← h] <;>
          exact exists_map_int_cons hlen

theorem structUnpack_single_I {bo : ByteOrder} {data : List Nat}
    (h : data.length = 4) :
    structUnpack bo [.I] data = some [.int (decodeUInt bo data)] := by
  have ht : data.take 4 = data := List.take_of_length_le (le_of_eq h)
  have hd : data.drop 4 = [] := List.drop_eq_nil_iff.mpr (le_of_eq h)
  simp [structUnpack, FmtItem.size, h, ht, hd]

theorem structUnpack_single_H {bo : ByteOrder} {data : List Nat}
    (h : data.length = 2) :
    structUnpack bo [.H] data = some [.int (decodeUInt bo data)] := by
  have ht : data.take 2 = data := List.take_of_length_le (le_of_eq h)
  have hd : data.drop 2 = [] := List.drop_eq_nil_iff.mpr (le_of_eq h)
  simp [structUnpack, FmtItem.size, h, ht, hd]

theorem structUnpack_exif_header {data : List Nat} (h : data.length = 6) :
    structUnpack .big [.s 5, .c] data =
      some [.str (data.take 5), .str ((data.drop 5).take 1)] := by
  have h5 : (data.drop 5).length = 1 := by simp [h]
  have ht : (data.drop 5).take 1 = data.drop 5 := List.take_of_length_le (le_of_eq h5)
  have hd : (data.drop 5).drop 1 = [] := List.drop_eq_nil_iff.mpr (le_of_eq h5)
  simp [structUnpack, FmtItem.size, h, h5, ht, hd]

theorem pyUnpack_single_I {bo : ByteOrder} {data : List Nat}
    (h : data.length = 4) :
    pyUnpack bo [.I] data = .ok (.int (decodeUInt bo data)) := by
  simp [pyUnpack, structUnpack_single_I h]

theorem pyUnpack_single_H {bo : ByteOrder} {data : List Nat}
    (h : data.length = 2) :
    pyUnpack bo [.H] data = .ok (.int (decodeUInt bo data)) := by
  simp [pyUnpack, structUnpack_single_H h]

theorem asNat_ofNat (u : Nat) : asNat (.int (Int.ofNat u)) = .ok u := by
  simp [asNat, Int.toNat_ofNat]

theorem asNat_cast (u : Nat) : asNat (.int (u : Int)) = .ok u := by
  simp [asNat, Int.toNat_natCast]

theorem repFmt_count : ∀ (n : Nat) (f : List FmtItem),
    (repFmt n f).length = n * f.length
  | 0, f => by simp [repFmt]
  | n + 1, f => by
    simp [repFmt, repFmt_count n f, Nat.succ_mul, Nat.add_comm]

theorem calcSize_append (a b : List FmtItem) :
    calcSize (a ++ b) = calcSize a + calcSize b := by
  simp [calcSize]

theorem calcSize_repFmt : ∀ (n : Nat) (f : List FmtItem),
    calcSize (repFmt n f) = n * calcSize f
  | 0, f => by simp [repFmt, calcSize]
  | n + 1, f => by
    rw [repFmt, calcSize_append, calcSize_repFmt n f]
    ring

theorem mem_repFmt {it : FmtItem} : ∀ {n : Nat} {f : List FmtItem},
    it ∈ repFmt n f → it ∈ f := by
  intro n
  induction n with
  | zero => intro f h; simp [repFmt] at h
  | succ n ih =>
    intro f h
    rw [repFmt, List.mem_append] at h
    rcases h with h | h
    · exact h
    · exact ih h

/-! Helper lemmas about the `ifd_entries` mapping. -/

theorem lookupE_setEntry_eq (es : Entries) (n : List Nat) (v : PyVal) :
    lookupE (setEntry es n v) n = some v := by
  rw [setEntry, lookupE, List.find?_cons_of_pos _ (by simp)]
  rfl

theorem find?_filter_ne {n n' : List Nat} (hne : n' ≠ n) :
    ∀ es : Entries,
      List.find? (fun p => p.1 == n') (es.filter (fun p => p.1 != n)) =
        List.find? (fun p => p.1 == n') es := by
  intro es
  induction es with
  | nil => rfl
  | cons p t ih =>
    by_cases hk : p.1 = n
    · rw [List.filter_cons_of_neg (by simp [hk]), ih,
        List.find?_cons_of_neg _ (by simp [hk, Ne.symm hne])]
    · rw [List.filter_cons_of_pos (by simp [hk])]
      by_cases hk' : p.1 = n'
      · rw [List.find?_cons_of_pos _ (by simp [hk']),
          List.find?_cons_of_pos _ (by simp [hk'])]
      · rw [List.find?_cons_of_neg _ (by simp [hk']),
          List.find?_cons_of_neg _ (by simp [hk']), ih]

theorem lookupE_setEntry_ne {n' n : List Nat} (hne : n' ≠ n)
    (es : Entries) (v : PyVal) :
    lookupE (setEntry es n v) n' = lookupE es n' := by
  rw [setEntry, lookupE, List.find?_cons_of_neg _ (by simp [Ne.symm hne]),
    find?_filter_ne hne, lookupE]

theorem storeIfdEntry_eq (es : Entries) (tag typ cnt : Nat) (v : PyVal) :
    storeIfdEntry es tag typ cnt v =
      setEntry es (storeName tag) (translateIfdValue (storeMapping tag) v) := by
  rcases hgd : (lookupTag tag).getD (naName tag, none, []) with ⟨nm, d, mp⟩
  rw [storeIfdEntry, hgd, storeName, storeMapping, hgd]

theorem lookupE_storeIfdEntry (es : Entries) (tag typ cnt : Nat) (v : PyVal)
    (n : List Nat) :
    lookupE (storeIfdEntry es tag typ cnt v) n =
      if n = storeName tag then some (translateIfdValue (storeMapping tag) v)
      else lookupE es n := by
  rw [storeIfdEntry_eq]
  split
  · rename_i h
    rw [h, lookupE_setEntry_eq]
  · rename_i h
    rw [lookupE_setEntry_ne h]

theorem foldStore_append (a b : List (Nat × Nat × Nat × PyVal)) (es : Entries) :
    foldStore (a ++ b) es = foldStore b (foldStore a es) := by
  simp [foldStore, List.foldl_append]

theorem lookupE_foldStore_ne :
    ∀ (tr : List (Nat × Nat × Nat × PyVal)) (es : Entries) (n : List Nat),
      (∀ q ∈ tr, storeName q.1 ≠ n) →
      lookupE (foldStore tr es) n = lookupE es n := by
  intro tr
  induction tr with
  | nil => intro es n _; rfl
  | cons q tr ih =>
    intro es n hq
    rw [show foldStore (q :: tr) es =
        foldStore tr (storeIfdEntry es q.1 q.2.1 q.2.2.1 q.2.2.2) from rfl,
      ih _ n (fun p hp => hq p (List.mem_cons_of_mem _ hp)),
      lookupE_storeIfdEntry]
    rw [if_neg (Ne.symm (hq q (List.mem_cons_self _ _)))]

theorem defaultValue_eq_translate (d : PyVal) (m : List (PyVal × PyVal)) :
    defaultValue d m = translateIfdValue m d := by
  rw [defaultValue]
  split
  · rename_i h
    rw [List.isEmpty_iff.mp h]
    rfl
  · rfl

theorem lookupE_foldl_initStep_not_mem :
    ∀ (l : List (Nat × TagInfo)) (acc : Entries) (n : List Nat),
      n ∉ defaultedNamesOf l →
      lookupE (l.foldl initStep acc) n = lookupE acc n := by
  intro l
  induction l with
  | nil => intro acc n _; rfl
  | cons p l ih =>
    intro acc n hn
    rcases p with ⟨t, nm, d?, mp⟩
    rw [List.foldl_cons]
    cases d? with
    | none =>
      rw [show initStep acc (t, nm, none, mp) = acc from rfl]
      exact ih acc n (by
        simpa [defaultedNamesOf, List.filterMap_cons] using hn)
    | some d =>
      have hnames : defaultedNamesOf ((t, nm, some d, mp) :: l) =
          nm :: defaultedNamesOf l := by
        simp [defaultedNamesOf, List.filterMap_cons]
      rw [hnames] at hn
      rw [show initStep acc (t, nm, some d, mp) =
          setEntry acc nm (defaultValue d mp) from rfl,
        ih _ n (fun hc => hn (List.mem_cons_of_mem _ hc)),
        lookupE_setEntry_ne (fun hc => hn (by rw [hc]; exact List.mem_cons_self _ _))]

theorem lookupE_foldl_initStep_mem :
    ∀ (l : List (Nat × TagInfo)) (acc : Entries) (t : Nat) (n : List Nat)
      (d : PyVal) (m : List (PyVal × PyVal)),
      (t, (n, some d, m)) ∈ l → (defaultedNamesOf l).Nodup →
      lookupE (l.foldl initStep acc) n = some (defaultValue d m) := by
  intro l
  induction l with
  | nil => intro acc t n d m hmem _; simp at hmem
  | cons p l ih =>
    intro acc t n d m hmem hnd
    rcases List.mem_cons.mp hmem with heq | hmem'
    · subst heq
      have hnames : defaultedNamesOf ((t, n, some d, m) :: l) =
          n :: defaultedNamesOf l := by
        simp [defaultedNamesOf, List.filterMap_cons]
      rw [hnames] at hnd
      have hn : n ∉ defaultedNamesOf l := (List.nodup_cons.mp hnd).1
      rw [List.foldl_cons,
        show initStep acc (t, n, some d, m) =
          setEntry acc n (defaultValue d m) from rfl,
        lookupE_foldl_initStep_not_mem l _ n hn, lookupE_setEntry_eq]
    · rcases p with ⟨t2, nm2, d2?, mp2⟩
      rw [List.foldl_cons]
      cases d2? with
      | none =>
        exact ih _ t n d m hmem' (by
          simpa [defaultedNamesOf, List.filterMap_cons] using hnd)
      | some d2 =>
        have hnames : defaultedNamesOf ((t2, nm2, some d2, mp2) :: l) =
            nm2 :: defaultedNamesOf l := by
          simp [defaultedNamesOf, List.filterMap_cons]
        rw [hnames] at hnd
        exact ih _ t n d m hmem' (List.nodup_cons.mp hnd).2

theorem lookupE_initIfdDefaults {t : Nat} {n : List Nat} {d : PyVal}
    {m : List (PyVal × PyVal)} (hmem : (t, (n, some d, m)) ∈ IFD_TAGS) :
    lookupE initIfdDefaults n = some (translateIfdValue m d) := by
  have hnd : (defaultedNamesOf IFD_TAGS).Nodup := by decide
  rw [show initIfdDefaults = IFD_TAGS.foldl initStep [] from rfl,
    lookupE_foldl_initStep_mem IFD_TAGS [] t n d m hmem hnd,
    defaultValue_eq_translate]

/-! Helper lemmas about the recursive IFD decode. -/

theorem Except_bind_eq_ok {ε α β : Type} {a : Except ε α} {f : α → Except ε β}
    {b : β} : a.bind f = .ok b ↔ ∃ x, a = .ok x ∧ f x = .ok b := by
  cases a <;> simp [Except.bind]

theorem handle_trace {R : TiffSt → Int → Except Err TiffSt}
    (hR : ∀ st off st', R st off = .ok st' →
      ∃ tr, st'.entries = foldStore tr st.entries ∧
        ∀ q ∈ tr, q.1 ∉ EXIF_IFD_TAGS) :
    ∀ (st : TiffSt) (tag typ cnt : Nat) (v : PyVal) (st' : TiffSt),
      handleIfdEntry R st tag typ cnt v = .ok st' →
      ∃ tr, st'.entries = foldStore tr st.entries ∧
        ∀ q ∈ tr, q.1 ∉ EXIF_IFD_TAGS := by
  intro st tag typ cnt v st' h
  rw [handleIfdEntry] at h
  by_cases hm : tag ∈ EXIF_IFD_TAGS
  · rw [if_pos hm] at h
    by_cases hg : tag = 34853
    · rw [if_pos hg] at h
      exact ⟨[], by rw [← Except.ok.inj h]; rfl, by simp⟩
    · rw [if_neg hg] at h
      rcases Except_bind_eq_ok.mp h with ⟨z, _, h⟩
      exact hR st z st' h
  · rw [if_neg hm] at h
    refine ⟨[(tag, typ, cnt, v)], ?_, ?_⟩
    · rw [← Except.ok.inj h]
      rfl
    · intro q hq
      simp only [List.mem_singleton] at hq
      rw [hq]
      exact hm

theorem entry_trace {ctx : TiffCtx} {R : TiffSt → Int → Except Err TiffSt}
    (hR : ∀ st off st', R st off = .ok st' →
      ∃ tr, st'.entries = foldStore tr st.entries ∧
        ∀ q ∈ tr, q.1 ∉ EXIF_IFD_TAGS) :
    ∀ (st : TiffSt) (b : List Nat) (st' : TiffSt),
      decodeIfdEntry ctx R st b = .ok st' →
      ∃ tr, st'.entries = foldStore tr st.entries ∧
        ∀ q ∈ tr, q.1 ∉ EXIF_IFD_TAGS := by
  intro st b st' h
  rw [decodeIfdEntry] at h
  rcases Except_bind_eq_ok.mp h with ⟨hv, _, h⟩
  rcases Except_bind_eq_ok.mp h with ⟨tpc, _, h⟩
  rcases Except_bind_eq_ok.mp h with ⟨p, _, h⟩
  exact handle_trace hR { cur := p.2, entries := st.entries } _ _ _ _ _ h

theorem entries_trace {ctx : TiffCtx} {R : TiffSt → Int → Except Err TiffSt}
    (hR : ∀ st off st', R st off = .ok st' →
      ∃ tr, st'.entries = foldStore tr st.entries ∧
        ∀ q ∈ tr, q.1 ∉ EXIF_IFD_TAGS) :
    ∀ (n : Nat) (st st' : TiffSt),
      decodeEntries ctx R n st = .ok st' →
      ∃ tr, st'.entries = foldStore tr st.entries ∧
        ∀ q ∈ tr, q.1 ∉ EXIF_IFD_TAGS := by
  intro n
  induction n with
  | zero =>
    intro st st' h
    exact ⟨[], by rw [← Except.ok.inj h]; rfl, by simp⟩
  | succ n ih =>
    intro st st' h
    simp only [decodeEntries] at h
    rcases Except_bind_eq_ok.mp h with ⟨st1, h1, h2⟩
    obtain ⟨tr1, he1, hp1⟩ := entry_trace hR _ _ _ h1
    obtain ⟨tr2, he2, hp2⟩ := ih st1 st' h2
    refine ⟨tr1 ++ tr2, ?_, ?_⟩
    · rw [he2, he1, foldStore_append]
    · intro q hq
      rcases List.mem_append.mp hq with hq | hq
      · exact hp1 q hq
      · exact hp2 q hq

theorem decodeIfd_trace (ctx : TiffCtx) :
    ∀ (fuel : Nat) (st : TiffSt) (off : Int) (st' : TiffSt),
      decodeIfd ctx fuel st off = .ok st' →
      ∃ tr, st'.entries = foldStore tr st.entries ∧
        ∀ q ∈ tr, q.1 ∉ EXIF_IFD_TAGS := by
  intro fuel
  induction fuel with
  | zero => intro st off st' h; simp [decodeIfd] at h
  | succ fuel ih =>
    intro st off st' h
    simp only [decodeIfd] at h
    rcases Except_bind_eq_ok.mp h with ⟨cntV, _, h⟩
    rcases Except_bind_eq_ok.mp h with ⟨cnt, _, h⟩
    rcases Except_bind_eq_ok.mp h with ⟨st1, h1, h⟩
    rcases Except_bind_eq_ok.mp h with ⟨nx, _, h⟩
    obtain ⟨tr, he, hp⟩ := entries_trace (fun s o s' hh => ih s o s' hh) cnt _ st1 h1
    exact ⟨tr, by rw [← Except.ok.inj h]; exact he, hp⟩

/-! Claim theorems. -/

/-- C4: every IFD decode (`_decode_ifd`), including recursive sub-IFD
calls, restores the byte cursor to its position before the call, and so
does every offset-indirected value read (`_decode_value`'s indirection,
embodied in `sourceBytes`): nested decoding never disturbs the enclosing
decoder's read position. -/
theorem ifd_decode_restores_cursor :
    (∀ (ctx : TiffCtx) (fuel : Nat) (st : TiffSt) (off : Int) (st' : TiffSt),
      decodeIfd ctx fuel st off = .ok st' → st'.cur.pos = st.cur.pos) ∧
    (∀ (ctx : TiffCtx) (cur : Cursor) (field : List Nat) (byteLen : Nat)
      (b : List Nat) (cur2 : Cursor),
      sourceBytes ctx cur field byteLen = .ok (b, cur2) → cur2.pos = cur.pos) := by
  constructor
  · intro ctx fuel st off st' h
    cases fuel with
    | zero => simp [decodeIfd] at h
    | succ fuel =>
      simp only [decodeIfd] at h
      rcases Except_bind_eq_ok.mp h with ⟨cntV, _, h⟩
      rcases Except_bind_eq_ok.mp h with ⟨cnt, _, h⟩
      rcases Except_bind_eq_ok.mp h with ⟨st1, _, h⟩
      rcases Except_bind_eq_ok.mp h with ⟨nx, _, h⟩
      rw [← Except.ok.inj h]
      simp [Cursor.seek]
  · intro ctx cur field byteLen b cur2 h
    rw [sourceBytes] at h
    split at h
    · rcases Except_bind_eq_ok.mp h with ⟨offV, _, h⟩
      rcases Except_bind_eq_ok.mp h with ⟨off, _, h⟩
      obtain ⟨h1, h2⟩ := Prod.mk.inj (Except.ok.inj h)
      rw [← h2]
      simp [Cursor.seek]
    · obtain ⟨h1, h2⟩ := Prod.mk.inj (Except.ok.inj h)
      rw [← h2]

/-- Witness for C4: a concrete empty IFD decodes successfully and the
cursor position is restored; a concrete indirect value read preserves the
position. -/
theorem ifd_decode_restores_cursor_witness :
    (decodeIfd ⟨0, .big⟩ 1 ⟨⟨emptyIfdTiff, 0⟩, []⟩ 8 =
      .ok ⟨⟨emptyIfdTiff, 0⟩, []⟩ ∧
     (⟨⟨emptyIfdTiff, 0⟩, []⟩ : TiffSt).cur.pos =
      (⟨⟨emptyIfdTiff, 0⟩, []⟩ : TiffSt).cur.pos) ∧
    (sourceBytes ⟨0, .big⟩ ⟨emptyIfdTiff, 3⟩ [0, 0, 0, 0] 8 =
      .ok (emptyIfdTiff.take 8, ⟨emptyIfdTiff, 3⟩) ∧
     (⟨emptyIfdTiff, 3⟩ : Cursor).pos = (⟨emptyIfdTiff, 3⟩ : Cursor).pos) :=
  ⟨⟨rfl, ifd_decode_restores_cursor.1 ⟨0, .big⟩ 1 ⟨⟨emptyIfdTiff, 0⟩, []⟩ 8
      ⟨⟨emptyIfdTiff, 0⟩, []⟩ rfl⟩,
   ⟨rfl, ifd_decode_restores_cursor.2 ⟨0, .big⟩ ⟨emptyIfdTiff, 3⟩ [0, 0, 0, 0] 8
      (emptyIfdTiff.take 8) ⟨emptyIfdTiff, 3⟩ rfl⟩⟩

/-- C3: in `_handle_ifd_entry`, an entry with the GPS sub-IFD tag 34853
returns the state unchanged for every recursion callback, type, count,
and value — it never triggers a sub-directory decode and contributes no
field to `ifd_entries` — while an entry with the Exif sub-IFD tag 34665
recurses into the IFD decode at the decoded offset. -/
theorem gps_skipped_exif_recursed :
    (∀ (R : TiffSt → Int → Except Err TiffSt) (st : TiffSt) (typ cnt : Nat)
      (v : PyVal), handleIfdEntry R st 34853 typ cnt v = .ok st) ∧
    (∀ (R : TiffSt → Int → Except Err TiffSt) (st : TiffSt) (typ cnt : Nat)
      (z : Int), handleIfdEntry R st 34665 typ cnt (.int z) = R st z) := by
  constructor
  · intro R st typ cnt v
    rw [handleIfdEntry, if_pos (by decide), if_pos rfl]
  · intro R st typ cnt z
    rw [handleIfdEntry, if_pos (by decide), if_neg (by decide)]
    rfl

theorem sourceBytes_inline {ctx : TiffCtx} {cur : Cursor} {field : List Nat}
    {byteLen : Nat} (h : byteLen ≤ IFD_ENTRY_COUNT_LEN) :
    sourceBytes ctx cur field byteLen = .ok (field, cur) := by
  rw [sourceBytes, if_neg (by omega)]

theorem sourceBytes_indirect {ctx : TiffCtx} {cur : Cursor} {field : List Nat}
    {byteLen : Nat} (h : byteLen > IFD_ENTRY_COUNT_LEN)
    (hf : field.length = 4) :
    sourceBytes ctx cur field byteLen =
      .ok ((cur.data.drop (ctx.base + decodeUInt ctx.bo field)).take byteLen,
        cur) := by
  rw [sourceBytes, if_pos h, pyUnpack_single_I hf]
  simp only [Except.bind, asNat_cast, Cursor.read, Cursor.seek,
    Int.toNat_ofNat]
  rfl

theorem decodeValue_unfold {ctx : TiffCtx} {cur : Cursor} {typ : Nat}
    {field : List Nat} {count : Nat} {fmt : List FmtItem} {size : Nat}
    {nm : List Nat} {hp : Bool}
    (hl : lookupType typ = some (fmt, size, nm, hp)) (h7 : typ ≠ 7) :
    decodeValue ctx cur typ field count =
      (sourceBytes ctx cur field (size * count)).bind fun bc =>
      (pyUnpack ctx.bo (if typ = 2 then [.s count] else repFmt count fmt)
          (bc.1.take (size * count))).bind fun v =>
      .ok ((if hp then pyStrip v else v), bc.2) := by
  rw [decodeValue, if_neg h7, hl]

/-- C1: the source of a decoded entry's value bytes.  Type `UNDEFINED`
(7) short-circuits to the raw 4-byte field verbatim, for every count;
otherwise `byte_len = element_size * count` selects inline storage
(`byte_len ≤ 4`: the entry's own field) or offset indirection
(`byte_len > 4`: the field is read as a 32-bit offset in the active byte
order and `byte_len` bytes are taken at the TIFF base plus that offset),
and `_decode_value` factors through exactly that choice of bytes. -/
theorem decode_value_source_selection :
    (∀ (ctx : TiffCtx) (cur : Cursor) (field : List Nat) (count : Nat),
      decodeValue ctx cur 7 field count = .ok (.str field, cur)) ∧
    (∀ (ctx : TiffCtx) (cur : Cursor) (field : List Nat) (byteLen : Nat),
      byteLen ≤ IFD_ENTRY_COUNT_LEN →
      sourceBytes ctx cur field byteLen = .ok (field, cur)) ∧
    (∀ (ctx : TiffCtx) (cur : Cursor) (field : List Nat) (byteLen : Nat),
      byteLen > IFD_ENTRY_COUNT_LEN → field.length = 4 →
      sourceBytes ctx cur field byteLen =
        .ok ((cur.data.drop (ctx.base + decodeUInt ctx.bo field)).take byteLen,
          cur)) ∧
    (∀ (ctx : TiffCtx) (cur : Cursor) (typ : Nat) (field : List Nat)
      (count : Nat) (fmt : List FmtItem) (size : Nat) (nm : List Nat)
      (hp : Bool), lookupType typ = some (fmt, size, nm, hp) → typ ≠ 7 →
      decodeValue ctx cur typ field count =
        (sourceBytes ctx cur field (size * count)).bind fun bc =>
        (pyUnpack ctx.bo (if typ = 2 then [.s count] else repFmt count fmt)
            (bc.1.take (size * count))).bind fun v =>
        .ok ((if hp then pyStrip v else v), bc.2)) := by
  refine ⟨?_, ?_, ?_, ?_⟩
  · intro ctx cur field count
    rw [decodeValue, if_pos rfl]
  · intro ctx cur field byteLen hle
    exact sourceBytes_inline hle
  · intro ctx cur field byteLen hgt hf
    exact sourceBytes_indirect hgt hf
  · intro ctx cur typ field count fmt size nm hp hl h7
    exact decodeValue_unfold hl h7

/-- Witness for C1 at concrete inputs: an UNDEFINED entry, an inline
read, an indirect read, and the factoring for a SHORT entry. -/
theorem decode_value_source_selection_witness :
    decodeValue ⟨0, .big⟩ ⟨emptyIfdTiff, 5⟩ 7 [1, 2, 3, 4] 99 =
      .ok (.str [1, 2, 3, 4], ⟨emptyIfdTiff, 5⟩) ∧
    sourceBytes ⟨0, .big⟩ ⟨emptyIfdTiff, 5⟩ [9, 9, 9, 9] 2 =
      .ok ([9, 9, 9, 9], ⟨emptyIfdTiff, 5⟩) ∧
    sourceBytes ⟨0, .big⟩ ⟨emptyIfdTiff, 5⟩ [0, 0, 0, 2] 8 =
      .ok ((emptyIfdTiff.drop 2).take 8, ⟨emptyIfdTiff, 5⟩) ∧
    decodeValue ⟨0, .big⟩ ⟨emptyIfdTiff, 5⟩ 3 [0, 7, 0, 0] 1 =
      (sourceBytes ⟨0, .big⟩ ⟨emptyIfdTiff, 5⟩ [0, 7, 0, 0] (2 * 1)).bind
        (fun bc => (pyUnpack .big (repFmt 1 [.H]) (bc.1.take (2 * 1))).bind
          (fun v => .ok ((if false then pyStrip v else v), bc.2))) := by
  refine ⟨?_, ?_, ?_, ?_⟩
  · exact decode_value_source_selection.1 ⟨0, .big⟩ ⟨emptyIfdTiff, 5⟩ [1, 2, 3, 4] 99
  · exact decode_value_source_selection.2.1 ⟨0, .big⟩ ⟨emptyIfdTiff, 5⟩
      [9, 9, 9, 9] 2 (by decide)
  · have := decode_value_source_selection.2.2.1 ⟨0, .big⟩ ⟨emptyIfdTiff, 5⟩
      [0, 0, 0, 2] 8 (by decide) (by decide)
    simpa using this
  · exact decode_value_source_selection.2.2.2 ⟨0, .big⟩ ⟨emptyIfdTiff, 5⟩ 3
      [0, 7, 0, 0] 1 [.H] 2 (pstr ("SHORT")) false rfl (by decide)

theorem lookupType_none {typ : Nat}
    (h : typ ∉ ([1, 2, 3, 4, 5, 7, 9, 10] : List Nat)) :
    lookupType typ = none := by
  have hkeys : ∀ x ∈ IFD_TYPES, x.1 ∈ ([1, 2, 3, 4, 5, 7, 9, 10] : List Nat) := by
    decide
  have hfind : IFD_TYPES.find? (fun p => decide (p.1 = typ)) = none :=
    List.find?_eq_none.mpr (fun x hx => by
      simp only [decide_eq_true_eq]
      intro hc
      exact h (hc ▸ hkeys x hx))
  rw [lookupType, hfind]
  rfl

theorem lookupType_mem {typ : Nat} {info : List FmtItem × Nat × List Nat × Bool}
    (h : lookupType typ = some info) : (typ, info) ∈ IFD_TYPES := by
  rw [lookupType] at h
  rcases Option.map_eq_some'.mp h with ⟨p, hf, hp2⟩
  have hmem := List.mem_of_find?_eq_some hf
  have hpred := List.find?_some hf
  simp only [decide_eq_true_eq] at hpred
  rcases p with ⟨k, i⟩
  simp only at hpred hp2
  rw [← hpred, ← hp2]
  exact hmem

theorem calcSize_fmt2 {typ : Nat} {fmt : List FmtItem} {size : Nat}
    {nm : List Nat} {hp : Bool}
    (h : lookupType typ = some (fmt, size, nm, hp)) (count : Nat) :
    calcSize (if typ = 2 then [FmtItem.s count] else repFmt count fmt) =
      size * count := by
  have hmem := lookupType_mem h
  simp only [IFD_TYPES, List.mem_cons, List.not_mem_nil, or_false,
    Prod.mk.injEq] at hmem
  rcases hmem with h1|h1|h1|h1|h1|h1|h1|h1 <;>
    obtain ⟨rfl, rfl, rfl, rfl, rfl⟩ := h1 <;>
    first
      | (rw [if_pos rfl]
         simp only [calcSize, List.map, List.sum_cons, List.sum_nil,
           FmtItem.size]
         omega)
      | (rw [if_neg (by decide), calcSize_repFmt]
         simp only [calcSize, List.map, List.sum_cons, List.sum_nil,
           FmtItem.size]
         omega)

/-- C8: `_decode_value`'s failure kinds.  A type code outside the eight
recognized ones raises the `IFD_TYPES` `KeyError` (`UnknownType`); an
offset-indirected read that runs past end-of-data leaves too few bytes
for `struct.unpack`, which raises `struct.error` (`TruncatedData`); and a
failing `_decode_value` propagates out of `_decode_ifd_entry`, so no
value is ever silently stored. -/
theorem decode_value_error_kinds :
    (∀ (ctx : TiffCtx) (cur : Cursor) (field : List Nat) (count typ : Nat),
      typ ∉ ([1, 2, 3, 4, 5, 7, 9, 10] : List Nat) →
      decodeValue ctx cur typ field count = .error .unknownType) ∧
    (∀ (ctx : TiffCtx) (cur : Cursor) (field : List Nat) (count typ : Nat)
      (fmt : List FmtItem) (size : Nat) (nm : List Nat) (hp : Bool),
      lookupType typ = some (fmt, size, nm, hp) → typ ≠ 7 →
      field.length = 4 → size * count > IFD_ENTRY_COUNT_LEN →
      cur.data.length < ctx.base + decodeUInt ctx.bo field + size * count →
      decodeValue ctx cur typ field count = .error .truncatedData) ∧
    (∀ (ctx : TiffCtx) (R : TiffSt → Int → Except Err TiffSt) (st : TiffSt)
      (b : List Nat) (tag typ cnt : Int) (e : Err),
      pyUnpack ctx.bo [.H, .H, .I] (b.take 8) =
        .ok (.tup [.int tag, .int typ, .int cnt]) →
      decodeValue ctx st.cur typ.toNat (b.drop 8) cnt.toNat = .error e →
      decodeIfdEntry ctx R st b = .error e) := by
  refine ⟨?_, ?_, ?_⟩
  · intro ctx cur field count typ hni
    have h7 : typ ≠ 7 := fun hc => hni (by rw [hc]; decide)
    rw [decodeValue, if_neg h7, lookupType_none hni]
  · intro ctx cur field count typ fmt size nm hp hl h7 hf hbl hlen
    rw [decodeValue_unfold hl h7, sourceBytes_indirect hbl hf]
    have hnone : structUnpack ctx.bo
        (if typ = 2 then [FmtItem.s count] else repFmt count fmt)
        (((cur.data.drop (ctx.base + decodeUInt ctx.bo field)).take
            (size * count)).take (size * count)) = none := by
      cases heq : structUnpack ctx.bo
          (if typ = 2 then [FmtItem.s count] else repFmt count fmt)
          (((cur.data.drop (ctx.base + decodeUInt ctx.bo field)).take
              (size * count)).take (size * count)) with
      | none => rfl
      | some vs =>
        have hlen2 := structUnpack_length heq
        rw [calcSize_fmt2 hl count] at hlen2
        simp only [List.length_take, List.length_drop] at hlen2
        omega
    have hpy : pyUnpack ctx.bo
        (if typ = 2 then [FmtItem.s count] else repFmt count fmt)
        (((cur.data.drop (ctx.base + decodeUInt ctx.bo field)).take
            (size * count)).take (size * count)) = .error .truncatedData := by
      rw [pyUnpack, hnone]
    simp only [Except.bind]
    rw [hpy]
  · intro ctx R st b tag typ cnt e h1 h2
    rw [decodeIfdEntry, h1]
    simp only [Except.bind, asTriple]
    rw [h2]

/-- Witness for C8: an unknown type code 6, a RATIONAL read past
end-of-data, and the propagation of the unknown-type error through
`_decode_ifd_entry`, each at concrete inputs. -/
theorem decode_value_error_kinds_witness :
    decodeValue ⟨0, .big⟩ ⟨[], 0⟩ 6 [] 0 = .error .unknownType ∧
    decodeValue ⟨0, .big⟩ ⟨[], 0⟩ 5 [0, 0, 0, 0] 1 = .error .truncatedData ∧
    decodeIfdEntry ⟨0, .big⟩ (fun st _ => .ok st) ⟨⟨[], 0⟩, []⟩
      [0, 0, 0, 6, 0, 0, 0, 1, 0, 0, 0, 0] = .error .unknownType := by
  refine ⟨?_, ?_, ?_⟩
  · exact decode_value_error_kinds.1 ⟨0, .big⟩ ⟨[], 0⟩ [] 0 6 (by decide)
  · exact decode_value_error_kinds.2.1 ⟨0, .big⟩ ⟨[], 0⟩ [0, 0, 0, 0] 1 5
      [.I, .I] 8 (pstr ("RATIONAL")) false rfl (by decide) (by decide)
      (by decide) (by decide)
  · exact decode_value_error_kinds.2.2 ⟨0, .big⟩ (fun st _ => .ok st)
      ⟨⟨[], 0⟩, []⟩ [0, 0, 0, 6, 0, 0, 0, 1, 0, 0, 0, 0] 0 6 1 .unknownType
      (by rfl)
      (decode_value_error_kinds.1 ⟨0, .big⟩ ⟨[], 0⟩ [0, 0, 0, 0] 1 6 (by decide))

theorem structUnpack_single_s {bo : ByteOrder} {n : Nat} {data : List Nat}
    (h : data.length = n) :
    structUnpack bo [.s n] data = some [.str data] := by
  have ht : data.take n = data := List.take_of_length_le (le_of_eq h)
  have hd : data.drop n = [] := List.drop_eq_nil_iff.mpr (le_of_eq h)
  simp [structUnpack, FmtItem.size, h, ht, hd]

theorem pyUnpack_s_inv {bo : ByteOrder} {n : Nat} {data : List Nat} {w : PyVal}
    (h : pyUnpack bo [.s n] data = .ok w) :
    data.length = n ∧ w = .str data := by
  rw [pyUnpack] at h
  cases heq : structUnpack bo [.s n] data with
  | none => rw [heq] at h; simp at h
  | some vs =>
    rw [heq] at h
    have hlen := structUnpack_length heq
    simp only [calcSize, List.map, List.sum_cons, List.sum_nil,
      FmtItem.size, Nat.add_zero] at hlen
    have hvs : vs = [PyVal.str data] := by
      have h2 : structUnpack bo [FmtItem.s n] data = some [PyVal.str data] :=
        structUnpack_single_s hlen
      rw [heq] at h2
      exact Option.some.inj h2
    subst hvs
    exact ⟨hlen, (Except.ok.inj h).symm⟩

theorem pyUnpack_int_single {bo : ByteOrder} {its : List FmtItem}
    {data : List Nat} {w : PyVal} (hint : ∀ it ∈ its, intFmt it)
    (hlen : its.length = 1) (h : pyUnpack bo its data = .ok w) :
    ∃ z : Int, w = .int z := by
  rw [pyUnpack] at h
  cases heq : structUnpack bo its data with
  | none => rw [heq] at h; simp at h
  | some vs =>
    rw [heq] at h
    obtain ⟨zs, rfl, hl2⟩ := structUnpack_int_shape hint heq
    rw [hlen] at hl2
    rcases List.length_eq_one.mp hl2 with ⟨z, rfl⟩
    simp only [List.map] at h
    exact ⟨z, (Except.ok.inj h).symm⟩

theorem pyUnpack_int_multi {bo : ByteOrder} {its : List FmtItem}
    {data : List Nat} {w : PyVal} (hint : ∀ it ∈ its, intFmt it)
    (hlen : 1 < its.length) (h : pyUnpack bo its data = .ok w) :
    ∃ zs : List Int, w = .tup (zs.map PyVal.int) ∧ zs.length = its.length := by
  rw [pyUnpack] at h
  cases heq : structUnpack bo its data with
  | none => rw [heq] at h; simp at h
  | some vs =>
    rw [heq] at h
    obtain ⟨zs, rfl, hl2⟩ := structUnpack_int_shape hint heq
    rcases zs with _ | ⟨a, _ | ⟨b, t⟩⟩
    · rw [← hl2] at hlen; simp at hlen
    · rw [← hl2] at hlen; simp at hlen
    · simp only [List.map] at h
      exact ⟨a :: b :: t, (Except.ok.inj h).symm, hl2⟩

theorem decodeValue_int_fmt {ctx : TiffCtx} {cur : Cursor} {typ : Nat}
    {field : List Nat} {count : Nat} {v : PyVal} {cur2 : Cursor}
    {fmt : List FmtItem} {size : Nat} {nm : List Nat}
    (hl : lookupType typ = some (fmt, size, nm, false)) (h7 : typ ≠ 7)
    (h2 : typ ≠ 2) (hint : ∀ it ∈ fmt, intFmt it)
    (h : decodeValue ctx cur typ field count = .ok (v, cur2)) :
    (count * fmt.length = 1 → ∃ z : Int, v = .int z) ∧
    (1 < count * fmt.length →
      ∃ zs : List Int, v = .tup (zs.map PyVal.int) ∧
        zs.length = count * fmt.length) := by
  rw [decodeValue_unfold hl h7, if_neg h2] at h
  rcases Except_bind_eq_ok.mp h with ⟨bc, hbc, h⟩
  rcases Except_bind_eq_ok.mp h with ⟨w, hw, h⟩
  obtain ⟨hv, hc⟩ := Prod.mk.inj (Except.ok.inj h)
  simp only [Bool.false_eq_true, if_false] at hv
  have hint2 : ∀ it ∈ repFmt count fmt, intFmt it :=
    fun it hit => hint it (mem_repFmt hit)
  constructor
  · intro h1
    obtain ⟨z, hz⟩ := pyUnpack_int_single hint2
      (by rw [repFmt_count]; exact h1) hw
    exact ⟨z, by rw [← hv, hz]⟩
  · intro h1
    obtain ⟨zs, hz, hzl⟩ := pyUnpack_int_multi hint2
      (by rw [repFmt_count]; exact h1) hw
    exact ⟨zs, by rw [← hv, hz], by rw [hzl, repFmt_count]⟩

/-- C7 counterexample: a RATIONAL (type 5) entry with count 2 decodes to
the flat 4-tuple `(1, 2, 3, 4)` — `struct.unpack` with format `"II"*2`
interleaves the numerators and denominators — which is neither an ordered
tuple of 2 decoded (numerator, denominator) elements nor of length 2, so
the claim's "count > 1 yields an ordered tuple of that many decoded
elements" fails on the code. -/
theorem rational_flat_tuple_counterexample :
    decodeValue ⟨0, .big⟩ ⟨twoRationals, 0⟩ 5 [0, 0, 0, 0] 2 =
      .ok (.tup [.int 1, .int 2, .int 3, .int 4], ⟨twoRationals, 0⟩) ∧
    PyVal.tup [.int 1, .int 2, .int 3, .int 4] ≠
      .tup [.tup [.int 1, .int 2], .tup [.int 3, .int 4]] ∧
    [PyVal.int 1, .int 2, .int 3, .int 4].length ≠ 2 :=
  ⟨rfl, by decide, by decide⟩

/-- C7 (amended): the shape of a decoded value is determined by
`(type, count)` as the code computes it.  An ASCII (type 2) entry decodes
to its `count` source bytes with the final byte (the NUL terminator)
dropped; an integer-typed entry (BYTE, SHORT, LONG, SLONG) yields a
scalar int for `count = 1` and an ordered tuple of `count` ints for
`count > 1`; a rational entry (RATIONAL, SRATIONAL) yields a flat tuple
of `2 * count` ints (numerators and denominators interleaved), not a
tuple of `count` pairs. -/
theorem decoded_value_shape :
    (∀ (ctx : TiffCtx) (cur : Cursor) (field : List Nat) (count : Nat)
      (v : PyVal) (cur2 : Cursor),
      decodeValue ctx cur 2 field count = .ok (v, cur2) →
      ∃ b : List Nat, sourceBytes ctx cur field (1 * count) = .ok (b, cur2) ∧
        v = .str ((b.take (1 * count)).dropLast)) ∧
    (∀ (ctx : TiffCtx) (cur : Cursor) (typ : Nat) (field : List Nat)
      (count : Nat) (v : PyVal) (cur2 : Cursor),
      (typ = 1 ∨ typ = 3 ∨ typ = 4 ∨ typ = 9) →
      decodeValue ctx cur typ field count = .ok (v, cur2) →
      (count = 1 → ∃ z : Int, v = .int z) ∧
      (1 < count → ∃ zs : List Int, v = .tup (zs.map PyVal.int) ∧
        zs.length = count)) ∧
    (∀ (ctx : TiffCtx) (cur : Cursor) (typ : Nat) (field : List Nat)
      (count : Nat) (v : PyVal) (cur2 : Cursor),
      (typ = 5 ∨ typ = 10) →
      decodeValue ctx cur typ field count = .ok (v, cur2) →
      ∃ zs : List Int, v = .tup (zs.map PyVal.int) ∧ zs.length = 2 * count) := by
  refine ⟨?_, ?_, ?_⟩
  · intro ctx cur field count v cur2 h
    rw [decodeValue_unfold
      (show lookupType 2 = some ([.s 1], 1, pstr ("ASCII"), true) from rfl)
      (by decide), if_pos rfl] at h
    rcases Except_bind_eq_ok.mp h with ⟨bc, hbc, h⟩
    rcases Except_bind_eq_ok.mp h with ⟨w, hw, h⟩
    obtain ⟨hv, hc⟩ := Prod.mk.inj (Except.ok.inj h)
    simp only [if_true] at hv
    obtain ⟨hlen, hws⟩ := pyUnpack_s_inv hw
    refine ⟨bc.1, ?_, ?_⟩
    · rw [← hc]
      exact hbc
    · rw [← hv, hws, pyStrip]
  · intro ctx cur typ field count v cur2 htyp h
    rcases htyp with rfl | rfl | rfl | rfl
    · have := decodeValue_int_fmt
        (show lookupType 1 = some ([.B], 1, pstr ("BYTE"), false) from rfl)
        (by decide) (by decide)
        (fun it hit => by
          rcases List.mem_singleton.mp hit with rfl
          exact Or.inl rfl) h
      simpa using this
    · have := decodeValue_int_fmt
        (show lookupType 3 = some ([.H], 2, pstr ("SHORT"), false) from rfl)
        (by decide) (by decide)
        (fun it hit => by
          rcases List.mem_singleton.mp hit with rfl
          exact Or.inr (Or.inl rfl)) h
      simpa using this
    · have := decodeValue_int_fmt
        (show lookupType 4 = some ([.I], 4, pstr ("LONG"), false) from rfl)
        (by decide) (by decide)
        (fun it hit => by
          rcases List.mem_singleton.mp hit with rfl
          exact Or.inr (Or.inr (Or.inl rfl))) h
      simpa using this
    · have := decodeValue_int_fmt
        (show lookupType 9 = some ([.i], 4, pstr ("SLONG"), false) from rfl)
        (by decide) (by decide)
        (fun it hit => by
          rcases List.mem_singleton.mp hit with rfl
          exact Or.inr (Or.inr (Or.inr rfl))) h
      simpa using this
  · intro ctx cur typ field count v cur2 htyp h
    rcases htyp with rfl | rfl
    · have hshape := decodeValue_int_fmt
        (show lookupType 5 = some ([.I, .I], 8, pstr ("RATIONAL"), false)
          from rfl) (by decide) (by decide)
        (fun it hit => by fin_cases hit <;> simp [intFmt]) h
      have hcpos : 0 < count := by
        rcases Nat.eq_zero_or_pos count with rfl | hpos
        · exfalso
          rw [decodeValue_unfold
            (show lookupType 5 = some ([.I, .I], 8, pstr ("RATIONAL"), false)
              from rfl) (by decide), if_neg (by decide)] at h
          rcases Except_bind_eq_ok.mp h with ⟨bc, hbc, h2⟩
          rcases Except_bind_eq_ok.mp h2 with ⟨w, hw, h3⟩
          simp [pyUnpack, repFmt, structUnpack] at hw
        · exact hpos
      have hlt : 1 < count * ([FmtItem.I, FmtItem.I] : List FmtItem).length := by
        simp only [List.length_cons, List.length_nil]
        omega
      obtain ⟨zs, hz, hzl⟩ := hshape.2 hlt
      have hzl2 : zs.length = count * 2 := by simpa using hzl
      exact ⟨zs, hz, by omega⟩
    · have hshape := decodeValue_int_fmt
        (show lookupType 10 = some ([.i, .i], 8, pstr ("SRATIONAL"), false)
          from rfl) (by decide) (by decide)
        (fun it hit => by fin_cases hit <;> simp [intFmt]) h
      have hcpos : 0 < count := by
        rcases Nat.eq_zero_or_pos count with rfl | hpos
        · exfalso
          rw [decodeValue_unfold
            (show lookupType 10 = some ([.i, .i], 8, pstr ("SRATIONAL"), false)
              from rfl) (by decide), if_neg (by decide)] at h
          rcases Except_bind_eq_ok.mp h with ⟨bc, hbc, h2⟩
          rcases Except_bind_eq_ok.mp h2 with ⟨w, hw, h3⟩
          simp [pyUnpack, repFmt, structUnpack] at hw
        · exact hpos
      have hlt : 1 < count * ([FmtItem.i, FmtItem.i] : List FmtItem).length := by
        simp only [List.length_cons, List.length_nil]
        omega
      obtain ⟨zs, hz, hzl⟩ := hshape.2 hlt
      have hzl2 : zs.length = count * 2 := by simpa using hzl
      exact ⟨zs, hz, by omega⟩

/-- Witness for C7 at concrete inputs: an ASCII value, a scalar SHORT,
and a RATIONAL pair list. -/
theorem decoded_value_shape_witness :
    (decodeValue ⟨0, .big⟩ ⟨[], 0⟩ 2 [65, 66, 0, 0] 3 =
        .ok (.str [65, 66], ⟨[], 0⟩) ∧
      ∃ b : List Nat, sourceBytes ⟨0, .big⟩ ⟨[], 0⟩ [65, 66, 0, 0] (1 * 3) =
        .ok (b, ⟨[], 0⟩) ∧
        PyVal.str [65, 66] = .str ((b.take (1 * 3)).dropLast)) ∧
    (decodeValue ⟨0, .big⟩ ⟨[], 0⟩ 3 [0, 5, 0, 0] 1 =
        .ok (.int 5, ⟨[], 0⟩) ∧
      (1 = 1 → ∃ z : Int, PyVal.int 5 = .int z)) ∧
    (decodeValue ⟨0, .big⟩ ⟨twoRationals, 0⟩ 5 [0, 0, 0, 0] 2 =
        .ok (.tup [.int 1, .int 2, .int 3, .int 4], ⟨twoRationals, 0⟩) ∧
      ∃ zs : List Int, PyVal.tup [.int 1, .int 2, .int 3, .int 4] =
        .tup (zs.map PyVal.int) ∧ zs.length = 2 * 2) :=
  ⟨⟨rfl, decoded_value_shape.1 ⟨0, .big⟩ ⟨[], 0⟩ [65, 66, 0, 0] 3
      (.str [65, 66]) ⟨[], 0⟩ rfl⟩,
   ⟨rfl, fun _ => (decoded_value_shape.2.1 ⟨0, .big⟩ ⟨[], 0⟩ 3 [0, 5, 0, 0] 1
      (.int 5) ⟨[], 0⟩ (Or.inr (Or.inl rfl)) rfl).1 rfl⟩,
   ⟨rfl, decoded_value_shape.2.2 ⟨0, .big⟩ ⟨twoRationals, 0⟩ 5 [0, 0, 0, 0] 2
      (.tup [.int 1, .int 2, .int 3, .int 4]) ⟨twoRationals, 0⟩
      (Or.inl rfl) rfl⟩⟩

theorem exif_header_iff {data : List Nat} (hlen : data.length = 6) :
    (data.take 5 = ID_CODE ∧ (data.drop 5).take 1 = PADDING) ↔
      data = ID_CODE ++ PADDING := by
  have hd5 : (data.drop 5).length = 1 := by simp [hlen]
  have ht : (data.drop 5).take 1 = data.drop 5 :=
    List.take_of_length_le (le_of_eq hd5)
  rw [ht]
  constructor
  · rintro ⟨h1, h2⟩
    calc data = data.take 5 ++ data.drop 5 := (List.take_append_drop 5 data).symm
      _ = ID_CODE ++ PADDING := by rw [h1, h2]
  · intro hh
    subst hh
    exact ⟨by decide, by decide⟩

/-- C5 counterexample: the code accepts the six header bytes
`"Exif\x00\x00"` (`ID_CODE` is the five bytes `"Exif\x00"` and a further
NUL `PADDING` byte is required), although those six bytes are not equal
to the five-byte sequence `"Exif"` followed by a single NUL that the
claim describes; so "passes if and only if those 6 bytes equal the ASCII
literal "Exif" followed by a single NUL byte" is false of the code. -/
theorem exif_header_counterexample :
    verifyExif ⟨[0x45, 0x78, 0x69, 0x66, 0, 0], 0⟩ 0 =
      .ok ⟨[0x45, 0x78, 0x69, 0x66, 0, 0], 6⟩ ∧
    (((⟨[0x45, 0x78, 0x69, 0x66, 0, 0], 0⟩ : Cursor).seek
        (Int.ofNat 0)).read 6).1 ≠ [0x45, 0x78, 0x69, 0x66, 0] :=
  ⟨rfl, by decide⟩

/-- C5 (amended): decoding reads 6 bytes at the offset 4 bytes past the
APP1 marker and passes Exif-header validation if and only if those 6
bytes equal `"Exif"` followed by two NUL bytes (`ID_CODE ++ PADDING`);
any other 6 bytes fail with the `InvalidExifHeader` kind. -/
theorem exif_header_validation :
    (∀ (cur : Cursor) (off : Nat),
      (((cur.seek (Int.ofNat off)).read 6).1).length = 6 →
      (verifyExif cur off = .ok ((cur.seek (Int.ofNat off)).read 6).2 ↔
        ((cur.seek (Int.ofNat off)).read 6).1 = ID_CODE ++ PADDING) ∧
      (((cur.seek (Int.ofNat off)).read 6).1 ≠ ID_CODE ++ PADDING →
        verifyExif cur off = .error .invalidExifHeader)) ∧
    (∀ (fuel : Nat) (img : ImageInput) (cur : Cursor) (o : Int) (c2 : Cursor),
      verifyJpeg (toCursor img) = .ok cur →
      getApp1Offset cur = .ok (o, c2) → ¬ o < 0 →
      exifInit fuel img =
        (verifyExif c2 (o.toNat + 4)).bind fun c3 =>
          tiffInit fuel c3 (o.toNat + 4 + 6)) := by
  constructor
  · intro cur off hlen
    have hbody : verifyExif cur off =
        (if ((cur.seek (Int.ofNat off)).read 6).1.take 5 = ID_CODE ∧
            (((cur.seek (Int.ofNat off)).read 6).1.drop 5).take 1 = PADDING
         then .ok ((cur.seek (Int.ofNat off)).read 6).2
         else .error .invalidExifHeader) := by
      rw [verifyExif]
      rw [structUnpack_exif_header hlen]
    constructor
    · rw [hbody]
      by_cases hc : ((cur.seek (Int.ofNat off)).read 6).1.take 5 = ID_CODE ∧
          (((cur.seek (Int.ofNat off)).read 6).1.drop 5).take 1 = PADDING
      · rw [if_pos hc]
        exact iff_of_true rfl ((exif_header_iff hlen).mp hc)
      · rw [if_neg hc]
        exact iff_of_false (by simp) (fun hh => hc ((exif_header_iff hlen).mpr hh))
    · intro hne
      rw [hbody, if_neg (fun hc => hne ((exif_header_iff hlen).mp hc))]
  · intro fuel img cur o c2 hj ha hno
    rw [exifInit, hj]
    simp only [Except.bind]
    rw [ha]
    simp only [Except.bind]
    rw [if_neg hno]

/-- Witness for C5: the valid header at a concrete cursor, a rejected
header, and the pipeline position on a concrete JPEG. -/
theorem exif_header_validation_witness :
    (verifyExif ⟨[0x45, 0x78, 0x69, 0x66, 0, 7], 0⟩ 0 =
        .ok ((((⟨[0x45, 0x78, 0x69, 0x66, 0, 7], 0⟩ : Cursor).seek
          (Int.ofNat 0)).read 6).2) ↔
      ((((⟨[0x45, 0x78, 0x69, 0x66, 0, 7], 0⟩ : Cursor).seek
          (Int.ofNat 0)).read 6).1 = ID_CODE ++ PADDING)) ∧
    verifyExif ⟨[0x45, 0x78, 0x69, 0x66, 0, 7], 0⟩ 0 =
      .error .invalidExifHeader ∧
    exifInit 1 (ImageInput.str compressionJpeg) =
      ((verifyExif ⟨compressionJpeg, 4⟩ ((2 : Int).toNat + 4)).bind fun c3 =>
        tiffInit 1 c3 ((2 : Int).toNat + 4 + 6)) :=
  ⟨(exif_header_validation.1 ⟨[0x45, 0x78, 0x69, 0x66, 0, 7], 0⟩ 0
      (by decide)).1,
   (exif_header_validation.1 ⟨[0x45, 0x78, 0x69, 0x66, 0, 7], 0⟩ 0
      (by decide)).2 (by decide),
   exif_header_validation.2 1 (ImageInput.str compressionJpeg)
     ⟨compressionJpeg, 2⟩ 2 ⟨compressionJpeg, 4⟩ rfl rfl (by decide)⟩

/-- C9: a byte sequence whose first two bytes are not the SOI marker
fails construction with `NotAJpeg`; with a valid SOI, if the APP1 locator
(strict, JFIF-tolerant and linear-search paths, i.e. `_get_app1_offset`)
returns a negative offset, construction fails with `NoExifSegment`; and
an in-memory string and a seekable file handle over the same bytes
produce identical results, hence the same error kind. -/
theorem exif_construction_error_kinds :
    (∀ (fuel : Nat) (img : ImageInput), (toCursor img).data.take 2 ≠ SOI →
      exifInit fuel img = .error .notAJpeg) ∧
    (∀ (fuel : Nat) (img : ImageInput) (cur : Cursor) (o : Int) (c2 : Cursor),
      verifyJpeg (toCursor img) = .ok cur →
      getApp1Offset cur = .ok (o, c2) → o < 0 →
      exifInit fuel img = .error .noExifSegment) ∧
    (∀ (fuel : Nat) (bs : List Nat),
      exifInit fuel (.str bs) = exifInit fuel (.file bs)) := by
  refine ⟨?_, ?_, ?_⟩
  · intro fuel img h
    have hvj : verifyJpeg (toCursor img) = .error .notAJpeg := by
      have h2 : ¬((((toCursor img).seek 0).read 2).1 = SOI) := h
      rw [verifyJpeg, if_neg h2]
    rw [exifInit, hvj]
    rfl
  · intro fuel img cur o c2 hj ha ho
    rw [exifInit, hj]
    simp only [Except.bind]
    rw [ha]
    simp only [Except.bind]
    rw [if_pos ho]
  · intro fuel bs
    rfl

/-- Witness for C9: a one-byte non-JPEG input and a two-byte JPEG with no
APP1 segment, from both input forms. -/
theorem exif_construction_error_kinds_witness :
    exifInit 1 (ImageInput.str [0]) = .error .notAJpeg ∧
    exifInit 1 (ImageInput.str [255, 216]) = .error .noExifSegment ∧
    exifInit 1 (ImageInput.str [255, 216]) =
      exifInit 1 (ImageInput.file [255, 216]) := by
  have hloop : findLoop ⟨[255, 216], 2⟩ [] = (-1, ⟨[255, 216], 2⟩) := by
    rw [findLoop]
    decide
  have hfind : findApp1Marker ⟨[255, 216], 2⟩ 2 = (-1, ⟨[255, 216], 2⟩) := by
    show (let r := findLoop ⟨[255, 216], 2⟩ [];
      ((if r.1 < 0 then r.1 else r.1 + 2), r.2)) = (-1, ⟨[255, 216], 2⟩)
    rw [hloop]
    decide
  have ha : getApp1Offset ⟨[255, 216], 2⟩ = .ok (-1, ⟨[255, 216], 2⟩) := by
    calc getApp1Offset ⟨[255, 216], 2⟩
        = .ok (findApp1Marker ⟨[255, 216], 2⟩ 2) := rfl
      _ = .ok (-1, ⟨[255, 216], 2⟩) := by rw [hfind]
  exact ⟨exif_construction_error_kinds.1 1 (ImageInput.str [0]) (by decide),
    exif_construction_error_kinds.2.1 1 (ImageInput.str [255, 216])
      ⟨[255, 216], 2⟩ (-1) ⟨[255, 216], 2⟩ rfl ha (by decide),
    exif_construction_error_kinds.2.2 1 [255, 216]⟩

/-- C10: when the two bytes after SOI are the APP0/JFIF marker and `L`
is the declared big-endian length, `_get_app1_offset` computes
`offset += 2 + L` from the post-SOI offset 2 — counting the two length
bytes inside `L` but not the marker bytes — and so re-checks for the
APP1 marker at absolute offset `4 + L`; only if the two bytes there are
not APP1 does it fall back to `_find_app1_marker` starting from `4 + L`. -/
theorem jfif_skip_checks_app1 :
    ∀ (data : List Nat) (p hi lo : Nat),
      (data.drop 2).take 2 = APP0 →
      (data.drop 4).take 2 = [hi, lo] →
      ((data.drop (4 + (hi * 256 + lo))).take 2 = APP1 →
        ∃ c : Cursor, getApp1Offset ⟨data, p⟩ =
          .ok (((4 + (hi * 256 + lo) : Nat) : Int), c)) ∧
      ((data.drop (4 + (hi * 256 + lo))).take 2 ≠ APP1 →
        ∃ c : Cursor, c.data = data ∧ getApp1Offset ⟨data, p⟩ =
          .ok (findApp1Marker c ((4 + (hi * 256 + lo) : Nat) : Int))) := by
  intro data p hi lo h0 hL
  have h0' : ((((⟨data, p⟩ : Cursor).seek 2).read 2).1) = APP0 := h0
  have hlen2 : ((((⟨data, p⟩ : Cursor).seek 2).read 2).1).length = 2 := by
    rw [h0']
    rfl
  have hr1 : ((((⟨data, p⟩ : Cursor).seek 2).read 2).2.read 2).1 =
      (data.drop 4).take 2 := by
    show ((data.drop ((2 : Int).toNat +
      (((⟨data, p⟩ : Cursor).seek 2).read 2).1.length)).take 2) = _
    rw [hlen2]
    rw [show Int.toNat 2 + 2 = 4 from rfl]
  have hdec : decodeUInt .big [hi, lo] = hi * 256 + lo := by
    simp [decodeUInt]
  have hpy : pyUnpack .big [.H] (((((⟨data, p⟩ : Cursor).seek 2).read 2).2.read
      2).1) = .ok (.int ((hi * 256 + lo : Nat) : Int)) := by
    rw [hr1, hL, pyUnpack_single_H (by rfl), hdec]
  have hbody : getApp1Offset ⟨data, p⟩ =
      (if (((((((⟨data, p⟩ : Cursor).seek 2).read 2).2.read 2).2.seek
            ((2 : Int) + 2 + ((hi * 256 + lo : Nat) : Int))).read 2).1) = APP1
       then Except.ok (((2 : Int) + 2 + ((hi * 256 + lo : Nat) : Int)),
         (((((((⟨data, p⟩ : Cursor).seek 2).read 2).2.read 2).2.seek
           ((2 : Int) + 2 + ((hi * 256 + lo : Nat) : Int))).read 2).2))
       else Except.ok (findApp1Marker
         (((((((⟨data, p⟩ : Cursor).seek 2).read 2).2.read 2).2.seek
           ((2 : Int) + 2 + ((hi * 256 + lo : Nat) : Int))).read 2).2)
         (((2 : Int) + 2 + ((hi * 256 + lo : Nat) : Int))))) := by
    simp only [getApp1Offset]
    rw [if_pos h0', hpy]
    simp only [Except.bind]
    rw [asNat_cast]
  have hoff : ((2 : Int) + 2 + ((hi * 256 + lo : Nat) : Int)) =
      ((4 + (hi * 256 + lo) : Nat) : Int) := by
    push_cast
    ring
  have hmark : (((((((⟨data, p⟩ : Cursor).seek 2).read 2).2.read 2).2.seek
      ((2 : Int) + 2 + ((hi * 256 + lo : Nat) : Int))).read 2).1) =
      (data.drop (4 + (hi * 256 + lo))).take 2 := by
    show (data.drop
      ((2 : Int) + 2 + ((hi * 256 + lo : Nat) : Int)).toNat).take 2 = _
    have hpos : ((2 : Int) + 2 + ((hi * 256 + lo : Nat) : Int)).toNat =
        4 + (hi * 256 + lo) := by
      omega
    rw [hpos]
  constructor
  · intro happ1
    refine ⟨(((((((⟨data, p⟩ : Cursor).seek 2).read 2).2.read 2).2.seek
      ((2 : Int) + 2 + ((hi * 256 + lo : Nat) : Int))).read 2).2), ?_⟩
    rw [hbody, hmark, if_pos happ1, hoff]
  · intro hnapp1
    refine ⟨(((((((⟨data, p⟩ : Cursor).seek 2).read 2).2.read 2).2.seek
      ((2 : Int) + 2 + ((hi * 256 + lo : Nat) : Int))).read 2).2), rfl, ?_⟩
    rw [hbody, hmark, if_neg hnapp1, hoff]

/-- Witness for C10: a JFIF header of declared length 16 followed by APP1
at offset 20, and the same bytes without the APP1 marker. -/
theorem jfif_skip_checks_app1_witness :
    (∃ c : Cursor, getApp1Offset ⟨jfifThenApp1, 0⟩ =
      .ok (((4 + (0 * 256 + 16) : Nat) : Int), c)) ∧
    (∃ c : Cursor, c.data = jfifNoApp1 ∧ getApp1Offset ⟨jfifNoApp1, 0⟩ =
      .ok (findApp1Marker c ((4 + (0 * 256 + 16) : Nat) : Int))) :=
  ⟨(jfif_skip_checks_app1 jfifThenApp1 0 0 16 (by decide) (by decide)).1
      (by decide),
   (jfif_skip_checks_app1 jfifNoApp1 0 0 16 (by decide) (by decide)).2
      (by decide)⟩

/-- C2: after any successful decode, the output mapping is the defaults
map overwritten by the trace of stored entries: each stored (non-pointer)
entry lands under its catalog field name — or the synthesized
`NA-0x<hex>` name — bound to the value-map translation of its raw
decoded value, overwriting any earlier binding of that name; and every
catalog tag with a non-None default whose field name no stored entry
touches is still bound (not absent) to the value-map translation of its
default. -/
theorem ifd_defaults_and_store_rule :
    (∀ (es : Entries) (tag typ cnt : Nat) (v : PyVal) (n : List Nat),
      lookupE (storeIfdEntry es tag typ cnt v) n =
        if n = storeName tag
        then some (translateIfdValue (storeMapping tag) v)
        else lookupE es n) ∧
    (∀ (fuel : Nat) (cur : Cursor) (base : Nat) (st : TiffSt),
      tiffInit fuel cur base = .ok st →
      ∃ tr : List (Nat × Nat × Nat × PyVal),
        st.entries = foldStore tr initIfdDefaults ∧
        (∀ q ∈ tr, q.1 ∉ EXIF_IFD_TAGS) ∧
        (∀ (t : Nat) (n : List Nat) (d : PyVal) (m : List (PyVal × PyVal)),
          (t, (n, some d, m)) ∈ IFD_TAGS →
          (∀ q ∈ tr, storeName q.1 ≠ n) →
          lookupE st.entries n = some (translateIfdValue m d))) := by
  constructor
  · intro es tag typ cnt v n
    exact lookupE_storeIfdEntry es tag typ cnt v n
  · intro fuel cur base st h
    simp only [tiffInit] at h
    rcases Except_bind_eq_ok.mp h with ⟨bc, _, h⟩
    rcases Except_bind_eq_ok.mp h with ⟨oc, _, h⟩
    obtain ⟨tr, he, hp⟩ := decodeIfd_trace ⟨base, bc.1⟩ fuel _ oc.1 st h
    have he2 : st.entries = foldStore tr initIfdDefaults := he
    refine ⟨tr, he2, hp, ?_⟩
    intro t n d m hmem hnone
    rw [he2, lookupE_foldStore_ne tr _ n hnone, lookupE_initIfdDefaults hmem]

/-- Witness for C2: the minimal empty-IFD TIFF block decodes
successfully; the defaults/store property holds for it. -/
theorem ifd_defaults_and_store_rule_witness :
    tiffInit 1 ⟨emptyIfdTiff, 0⟩ 0 = .ok ⟨⟨emptyIfdTiff, 8⟩, initIfdDefaults⟩ ∧
    ∃ tr : List (Nat × Nat × Nat × PyVal),
      (⟨⟨emptyIfdTiff, 8⟩, initIfdDefaults⟩ : TiffSt).entries =
        foldStore tr initIfdDefaults ∧
      (∀ q ∈ tr, q.1 ∉ EXIF_IFD_TAGS) ∧
      (∀ (t : Nat) (n : List Nat) (d : PyVal) (m : List (PyVal × PyVal)),
        (t, (n, some d, m)) ∈ IFD_TAGS →
        (∀ q ∈ tr, storeName q.1 ≠ n) →
        lookupE (⟨⟨emptyIfdTiff, 8⟩, initIfdDefaults⟩ : TiffSt).entries n =
          some (translateIfdValue m d)) :=
  ⟨rfl, ifd_defaults_and_store_rule.2 1 ⟨emptyIfdTiff, 0⟩ 0
    ⟨⟨emptyIfdTiff, 8⟩, initIfdDefaults⟩ rfl⟩

theorem cyclic_ifd_loop : ∀ (f p : Nat) (es : Entries),
    decodeIfd ⟨12, .big⟩ f ⟨⟨cyclicIfdJpeg, p⟩, es⟩ 8 =
      .error .recursionLimit := by
  intro f
  induction f with
  | zero => intro p es; rfl
  | succ f ih =>
    intro p es
    have h1 : decodeIfd ⟨12, .big⟩ (f + 1) ⟨⟨cyclicIfdJpeg, p⟩, es⟩ 8 =
        ((decodeIfd ⟨12, .big⟩ f ⟨⟨cyclicIfdJpeg, 34⟩, es⟩ 8).bind
          (fun st1 => decodeEntries ⟨12, .big⟩
            (fun s o => decodeIfd ⟨12, .big⟩ f s o) 0 st1)).bind
          (fun st1 =>
            (pyUnpack ByteOrder.big [.I] (st1.cur.read IFD_OFFSET_LEN).1).bind
            (fun _ => Except.ok
              { cur := (st1.cur.read IFD_OFFSET_LEN).2.seek (Int.ofNat p),
                entries := st1.entries })) := rfl
    rw [h1, ih 34 es]
    rfl

/-- C6 (the code violates the claim): on `cyclicIfdJpeg`, whose single
IFD entry is an Exif sub-IFD pointer whose offset leads back to its own
IFD, the decode recurses at the same offset for every recursion budget:
for every `fuel` the fuel-indexed decoder exhausts its budget (in
CPython, the unbounded recursion of `_decode_ifd` exceeds the
interpreter's recursion limit), so the decode does not perform bounded
work on every input as the claim states. -/
theorem cyclic_ifd_unbounded_recursion :
    ∀ fuel : Nat, exifInit fuel (ImageInput.str cyclicIfdJpeg) =
      .error .recursionLimit := by
  intro fuel
  have h0 : exifInit fuel (ImageInput.str cyclicIfdJpeg) =
      decodeIfd ⟨12, .big⟩ fuel ⟨⟨cyclicIfdJpeg, 20⟩, initIfdDefaults⟩ 8 := rfl
  rw [h0, cyclic_ifd_loop fuel 20 initIfdDefaults]
